import Mathlib

/-!
A shallow embedding of the task-claim and worktree lifecycle engine of the
bacchus repository (src/tools/{claim,next,release,abort,resolve,stale}.rs,
src/worktree.rs, src/beads.rs, src/db/migrations.rs).

Modelling conventions:
  * Filesystem and git state is a `GitState`: the set of bead ids that have a
    worktree directory under `.bacchus/worktrees/`, the set of existing branch
    names, whether `.git/MERGE_HEAD` exists, the trimmed stdout that
    `git name-rev --name-only MERGE_HEAD` would produce (`none` models a
    failing name-rev subprocess), and whether `git ls-files -u` is non-empty.
  * Paths are recorded relative to the workspace root (the Rust code joins
    them onto `workspace_root`; that prefix is constant and dropped here).
  * Every fallible external effect (git subprocess, tracker UPDATE, claims
    INSERT) takes its outcome from an `Env` of injected results, mirroring the
    fact that those operations can independently fail.
  * Each port-level operation records one `Ev` event when it is invoked; the
    tool functions return the event trace in call order, which is how the
    ordering guarantees of the spec are stated.
  * Rust `i64` timestamps become `Int` (no claim depends on wrap-around).
-/

deriving instance DecidableEq for Except

namespace Bacchus

/-- A row of the `claims` table (migration `simplify_schema_claims_only`):
`bead_id` is the primary key. -/
structure ClaimRow where
  bead_id : String
  agent_id : String
  worktree_path : String
  branch_name : String
  start_commit : String
  claimed_at : Int
deriving DecidableEq, Repr

/-- A row of the beads tracker `issues` table (src/beads.rs `BeadInfo`). -/
structure BeadInfo where
  id : String
  title : String
  description : Option String
  priority : String
  status : String
deriving DecidableEq, Repr

/-- The beads tracker database: issues plus dependencies
(`(issue_id, blocks_id)` pairs). -/
structure TrackerDb where
  issues : List BeadInfo
  deps : List (String × String)
deriving DecidableEq, Repr

/-- Git and filesystem state visible to src/worktree.rs. -/
structure GitState where
  worktrees : List String
  branches : List String
  headCommit : String
  mergeHead : Bool
  nameRevOut : Option String
  unresolved : Bool
deriving DecidableEq, Repr

/-- Whole engine state: claims table, tracker database, git state. -/
structure St where
  claims : List ClaimRow
  tracker : TrackerDb
  git : GitState
deriving DecidableEq, Repr

/-- Outcome of the `git merge` subprocess in `merge_worktree`: clean merge,
conflict (carrying what `name-rev` will report for the new `MERGE_HEAD`,
`none` when that subprocess fails), or a non-conflict failure. -/
inductive MergeOutcome
  | ok
  | conflict (nameRevOut : Option String)
  | fail (msg : String)
deriving DecidableEq, Repr

/-- Injected outcomes for every independently fallible external effect. -/
structure Env where
  createOk : String → Bool
  removeWtOk : String → Bool
  delBranchOk : String → Bool → Bool
  insertOk : Bool
  trackerDbOk : String → Bool
  checkoutOk : Bool
  mergeOutcome : String → MergeOutcome
  abortOk : Bool
  stageOk : Bool
  commitOk : Bool

/-- Port-level events, recorded when the corresponding operation is invoked. -/
inductive Ev
  | createWt (bead : String)
  | removeWt (bead : String) (force : Bool)
  | deleteBr (branch : String) (force : Bool)
  | insertClaim (bead : String)
  | deleteClaim (bead : String)
  | setStatus (bead : String) (status : String)
  | mergeWt (bead : String) (target : String)
  | abortMg
  | completeMg
deriving DecidableEq, Repr

/-- Errors of src/worktree.rs (`WorktreeError`). -/
inductive WorktreeError
  | gitError (msg : String)
  | alreadyExists (bead : String)
  | notFound (bead : String)
deriving DecidableEq, Repr

/-- Display form of `WorktreeError` (the `thiserror` format strings). -/
def wtErrMsg : WorktreeError → String
  | .gitError m => "Git command failed: " ++ m
  | .alreadyExists b => "Worktree already exists: " ++ b
  | .notFound b => "Worktree not found: " ++ b

/-- Errors of src/beads.rs (`BeadsError`). -/
inductive BeadsError
  | database (msg : String)
  | databaseNotFound (path : String)
  | beadNotFound (id : String)
  | invalidStatus (s : String)
deriving DecidableEq, Repr

/-- Display form of `BeadsError` (the `thiserror` format strings). -/
def beadsErrMsg : BeadsError → String
  | .database m => "Database error: " ++ m
  | .databaseNotFound p => "Beads database not found at path: " ++ p
  | .beadNotFound i => "Bead not found: " ++ i
  | .invalidStatus s => "Invalid status: " ++ s

/-- Error type of the tool functions (rusqlite errors with a wrapped message,
or a propagated worktree or beads error). -/
inductive Err
  | sqlite (msg : String)
  | wt (e : WorktreeError)
  | beads (e : BeadsError)
deriving DecidableEq, Repr

/-- Branch name for a bead: `bacchus/{bead_id}` (src/worktree.rs). -/
def branch_name (bead : String) : String := "bacchus/" ++ bead

/-- Worktree path for a bead, relative to the workspace root:
`.bacchus/worktrees/{bead_id}` (src/worktree.rs, default directory). -/
def worktree_path_of (bead : String) : String := ".bacchus/worktrees/" ++ bead

/-- `WorktreeInfo` returned by `create_worktree`. -/
structure WorktreeInfo where
  bead_id : String
  path : String
  branch : String
  head_commit : String
deriving DecidableEq, Repr

namespace Worktree

/-- src/worktree.rs `create_worktree`: pre-checks that the worktree path does
not already exist, then runs `git worktree add -b bacchus/{bead}` and reads
the HEAD commit of the fresh worktree. -/
def create_worktree (env : Env) (git : GitState) (bead : String) :
    Except WorktreeError WorktreeInfo × GitState × List Ev :=
  if bead ∈ git.worktrees then
    (.error (.alreadyExists bead), git, [.createWt bead])
  else if env.createOk bead then
    (.ok { bead_id := bead, path := worktree_path_of bead, branch := branch_name bead,
           head_commit := git.headCommit },
     { git with worktrees := bead :: git.worktrees,
                branches := branch_name bead :: git.branches },
     [.createWt bead])
  else
    (.error (.gitError "Failed to create worktree: "), git, [.createWt bead])

/-- src/worktree.rs `remove_worktree`: checks the path exists, runs
`git worktree remove [--force]`, then deletes the branch (`-D` when force,
`-d` otherwise). A branch-delete failure still leaves the worktree removed. -/
def remove_worktree (env : Env) (git : GitState) (bead : String) (force : Bool) :
    Except WorktreeError Unit × GitState × List Ev :=
  if bead ∈ git.worktrees then
    if env.removeWtOk bead then
      let git1 := { git with worktrees := git.worktrees.filter (fun w => w != bead) }
      if env.delBranchOk (branch_name bead) force then
        (.ok (),
         { git1 with branches := git1.branches.filter (fun b => b != branch_name bead) },
         [.removeWt bead force, .deleteBr (branch_name bead) force])
      else
        (.error (.gitError ("Failed to delete branch " ++ branch_name bead ++ ": ")), git1,
         [.removeWt bead force, .deleteBr (branch_name bead) force])
    else
      (.error (.gitError "Failed to remove worktree: "), git, [.removeWt bead force])
  else
    (.error (.notFound bead), git, [.removeWt bead force])

/-- src/worktree.rs `merge_worktree`: checks out the target branch, then merges
`bacchus/{bead}` into it. A conflicting merge fails the subprocess and leaves
`.git/MERGE_HEAD` plus unmerged paths behind. -/
def merge_worktree (env : Env) (git : GitState) (bead : String) (target : String) :
    Except WorktreeError Unit × GitState × List Ev :=
  if env.checkoutOk then
    match env.mergeOutcome bead with
    | .ok => (.ok (), git, [.mergeWt bead target])
    | .conflict nr =>
        (.error (.gitError ("Failed to merge " ++ branch_name bead ++ ": ")),
         { git with mergeHead := true, nameRevOut := nr, unresolved := true },
         [.mergeWt bead target])
    | .fail m =>
        (.error (.gitError ("Failed to merge " ++ branch_name bead ++ ": " ++ m)), git,
         [.mergeWt bead target])
  else
    (.error (.gitError ("Failed to checkout " ++ target ++ ": ")), git, [.mergeWt bead target])

/-- src/worktree.rs `is_in_merge_conflict`: `.git/MERGE_HEAD` exists. -/
def is_in_merge_conflict (git : GitState) : Bool := git.mergeHead

/-- src/worktree.rs `get_merge_branch`, cleaning step: strip a leading
`remotes/origin/` and keep only what precedes the first `~` (the Rust code
writes the latter as `split(\x27~\x27).next()`, which is the prefix before
the first tilde — the whole string when there is none). -/
def clean_merge_branch (branch : String) : String :=
  let stripped :=
    if branch.startsWith "remotes/origin/" then (branch.toList.drop 15).asString
    else branch
  (stripped.toList.takeWhile (fun c => c != Char.ofNat 126)).asString

/-- src/worktree.rs `get_merge_branch`: `none` when no merge is in progress or
when the `name-rev` subprocess fails; otherwise the cleaned branch name. -/
def get_merge_branch (git : GitState) : Option String :=
  if git.mergeHead then
    match git.nameRevOut with
    | none => none
    | some raw => some (clean_merge_branch raw)
  else none

/-- src/worktree.rs `abort_merge`: `git merge --abort`, restoring the pre-merge
state exactly. -/
def abort_merge (env : Env) (git : GitState) :
    Except WorktreeError Unit × GitState × List Ev :=
  if env.abortOk then
    (.ok (), { git with mergeHead := false, nameRevOut := none, unresolved := false },
     [.abortMg])
  else
    (.error (.gitError "Failed to abort merge: "), git, [.abortMg])

/-- src/worktree.rs `has_unresolved_conflicts`: `git ls-files -u` non-empty. -/
def has_unresolved_conflicts (git : GitState) : Bool := git.unresolved

/-- src/worktree.rs `complete_merge`: refuses while unresolved conflicts
remain, otherwise stages everything and commits with the pending merge
message, which clears `.git/MERGE_HEAD`. -/
def complete_merge (env : Env) (git : GitState) :
    Except WorktreeError Unit × GitState × List Ev :=
  if git.unresolved then
    (.error (.gitError "Cannot complete merge: unresolved conflicts remain"), git,
     [.completeMg])
  else if env.stageOk then
    if env.commitOk then
      (.ok (), { git with mergeHead := false, nameRevOut := none }, [.completeMg])
    else
      (.error (.gitError "Failed to complete merge: "), git, [.completeMg])
  else
    (.error (.gitError "Failed to stage changes: "), git, [.completeMg])

end Worktree

namespace Beads

/-- Rank used by the `ORDER BY CASE i.priority ...` clause of
`get_ready_beads`. -/
def priorityRank (p : String) : Nat :=
  if p == "P0" then 0
  else if p == "P1" then 1
  else if p == "P2" then 2
  else if p == "P3" then 3
  else 4

/-- The `NOT EXISTS` subquery of `get_ready_beads`: the issue has a dependency
whose blocker is neither done nor closed. -/
def is_blocked (db : TrackerDb) (id : String) : Bool :=
  db.deps.any (fun d =>
    d.1 == id && db.issues.any (fun b =>
      b.id == d.2 && b.status != "done" && b.status != "closed"))

/-- Order of the ready-beads query: priority rank first, then identifier. -/
def readyLE (a b : BeadInfo) : Prop :=
  priorityRank a.priority < priorityRank b.priority ∨
    (priorityRank a.priority = priorityRank b.priority ∧ a.id ≤ b.id)

instance : DecidableRel readyLE := fun a b => by
  unfold readyLE; infer_instance

/-- src/beads.rs `get_ready_beads`: open issues with no blocking dependency,
ordered by priority rank then id. -/
def get_ready_beads (db : TrackerDb) : List BeadInfo :=
  List.insertionSort readyLE
    (db.issues.filter (fun i => i.status == "open" && !(is_blocked db i.id)))

/-- src/beads.rs `get_bead`: first `issues` row with the given id. -/
def get_bead (db : TrackerDb) (id : String) : Except BeadsError BeadInfo :=
  match db.issues.find? (fun i => i.id == id) with
  | some b => .ok b
  | none => .error (.beadNotFound id)

/-- src/beads.rs `update_bead_status`: runs the UPDATE and fails with
`BeadNotFound` when no row changed. `env.trackerDbOk` injects SQL-level
failure of the tracker database. -/
def update_bead_status (env : Env) (db : TrackerDb) (id status : String) :
    Except BeadsError TrackerDb × TrackerDb × List Ev :=
  if env.trackerDbOk id then
    if db.issues.any (fun i => i.id == id) then
      let db1 := { db with issues := db.issues.map (fun i =>
        if i.id == id then { i with status := status } else i) }
      (.ok db1, db1, [.setStatus id status])
    else
      (.error (.beadNotFound id), db, [.setStatus id status])
  else
    (.error (.database "tracker database failure"), db, [.setStatus id status])

/-- Modelled from the spec: `IsReady(id) -> bool` of the TaskTrackerPort.
The function `beads::is_bead_ready` is called by src/tools/claim.rs but is not
defined anywhere under src/; per the spec, an item is ready when it has
status `open` and no unresolved blocking dependency (the same condition that
admits it into `GetReadyItems`). -/
def is_bead_ready (db : TrackerDb) (id : String) : Bool :=
  db.issues.any (fun i => i.id == id && i.status == "open") && !(is_blocked db id)

end Beads

/-- `SELECT 1 FROM claims WHERE bead_id = ?1` as used by every tool. -/
def claim_exists (claims : List ClaimRow) (bead : String) : Bool :=
  claims.any (fun c => c.bead_id == bead)

/-- `INSERT INTO claims ...`: the primary key on `bead_id` rejects a second
row for the same bead; `env.insertOk` injects other database failures. -/
def insert_claim (env : Env) (claims : List ClaimRow) (row : ClaimRow) :
    Except Err Unit × List ClaimRow × List Ev :=
  if claim_exists claims row.bead_id then
    (.error (.sqlite "UNIQUE constraint failed: claims.bead_id"), claims,
     [.insertClaim row.bead_id])
  else if env.insertOk then
    (.ok (), claims ++ [row], [.insertClaim row.bead_id])
  else
    (.error (.sqlite "database failure"), claims, [.insertClaim row.bead_id])

/-- `DELETE FROM claims WHERE bead_id = ?1`: idempotent. -/
def delete_claim (claims : List ClaimRow) (bead : String) :
    List ClaimRow × List Ev :=
  (claims.filter (fun c => c.bead_id != bead), [.deleteClaim bead])

namespace Tools

/-- Output of src/tools/claim.rs (`ClaimOutput`). -/
structure ClaimOutput where
  success : Bool
  bead_id : String
  title : Option String
  description : Option String
  worktree_path : Option String
  branch : Option String
  message : String
deriving DecidableEq, Repr

/-- src/tools/claim.rs `claim_task`: get the bead, refuse closed beads, refuse
non-ready beads unless forced, refuse already-claimed beads; then create the
worktree, insert the claim row (removing the worktree on failure), and set
the tracker status to in_progress (removing the worktree and deleting the
claim row on failure). -/
def claim_task (env : Env) (bead_id agent_id : String) (force : Bool) (now : Int)
    (st : St) : Except Err ClaimOutput × St × List Ev :=
  match Beads.get_bead st.tracker bead_id with
  | .error e => (.error (.sqlite ("Failed to get bead: " ++ beadsErrMsg e)), st, [])
  | .ok bead =>
    if bead.status == "closed" then
      (.ok { success := false, bead_id := bead_id, title := some bead.title,
             description := bead.description, worktree_path := none, branch := none,
             message := "Bead " ++ bead_id ++ " is already closed" }, st, [])
    else if !force && !(Beads.is_bead_ready st.tracker bead_id) then
      (.ok { success := false, bead_id := bead_id, title := some bead.title,
             description := bead.description, worktree_path := none, branch := none,
             message := "Bead " ++ bead_id ++ " is not ready (status: " ++ bead.status ++
               ", may be blocked by dependencies). Use --force to override." }, st, [])
    else if claim_exists st.claims bead_id then
      (.ok { success := false, bead_id := bead_id, title := some bead.title,
             description := bead.description, worktree_path := none, branch := none,
             message := "Bead " ++ bead_id ++ " is already claimed" }, st, [])
    else
      match Worktree.create_worktree env st.git bead_id with
      | (.error e, git1, t1) =>
          (.error (.sqlite ("Failed to create worktree: " ++ wtErrMsg e)),
           { st with git := git1 }, t1)
      | (.ok wt, git1, t1) =>
        let st1 := { st with git := git1 }
        match insert_claim env st1.claims
            { bead_id := bead_id, agent_id := agent_id, worktree_path := wt.path,
              branch_name := wt.branch, start_commit := wt.head_commit,
              claimed_at := now } with
        | (.error e, claims1, t2) =>
            let (_, git2, t3) := Worktree.remove_worktree env st1.git bead_id true
            (.error e, { st1 with claims := claims1, git := git2 }, t1 ++ t2 ++ t3)
        | (.ok _, claims1, t2) =>
          let st2 := { st1 with claims := claims1 }
          match Beads.update_bead_status env st2.tracker bead_id "in_progress" with
          | (.error e, tr1, t3) =>
              let (_, git2, t4) := Worktree.remove_worktree env st2.git bead_id true
              let (claims2, t5) := delete_claim st2.claims bead_id
              (.error (.sqlite ("Failed to update bead status: " ++ beadsErrMsg e)),
               { claims := claims2, tracker := tr1, git := git2 },
               t1 ++ t2 ++ t3 ++ t4 ++ t5)
          | (.ok _, tr1, t3) =>
              (.ok { success := true, bead_id := bead_id, title := some bead.title,
                     description := bead.description, worktree_path := some wt.path,
                     branch := some wt.branch,
                     message := "Claimed " ++ bead_id ++ " - work in " ++ wt.path },
               { st2 with tracker := tr1 }, t1 ++ t2 ++ t3)

/-- Output of src/tools/next.rs (`NextOutput`). -/
structure NextOutput where
  success : Bool
  bead_id : Option String
  title : Option String
  description : Option String
  worktree_path : Option String
  branch : Option String
  message : String
deriving DecidableEq, Repr

/-- src/tools/next.rs `next_task`: query the ready beads, fail when the list
is empty, otherwise take its first element; fail when that bead is already
claimed; else create the worktree, insert the claim row and set the tracker
status to in_progress. Unlike `claim_task`, failures after worktree creation
propagate without any compensation. -/
def next_task (env : Env) (agent_id : String) (now : Int) (st : St) :
    Except Err NextOutput × St × List Ev :=
  match Beads.get_ready_beads st.tracker with
  | [] =>
      (.ok { success := false, bead_id := none, title := none, description := none,
             worktree_path := none, branch := none,
             message := "No ready beads available" }, st, [])
  | bead :: _ =>
    if claim_exists st.claims bead.id then
      (.ok { success := false, bead_id := some bead.id, title := some bead.title,
             description := bead.description, worktree_path := none, branch := none,
             message := "Bead " ++ bead.id ++ " is already claimed" }, st, [])
    else
      match Worktree.create_worktree env st.git bead.id with
      | (.error e, git1, t1) =>
          (.error (.sqlite ("Failed to create worktree: " ++ wtErrMsg e)),
           { st with git := git1 }, t1)
      | (.ok wt, git1, t1) =>
        let st1 := { st with git := git1 }
        match insert_claim env st1.claims
            { bead_id := bead.id, agent_id := agent_id, worktree_path := wt.path,
              branch_name := wt.branch, start_commit := wt.head_commit,
              claimed_at := now } with
        | (.error e, claims1, t2) =>
            (.error e, { st1 with claims := claims1 }, t1 ++ t2)
        | (.ok _, claims1, t2) =>
          let st2 := { st1 with claims := claims1 }
          match Beads.update_bead_status env st2.tracker bead.id "in_progress" with
          | (.error e, tr1, t3) =>
              (.error (.sqlite ("Failed to update bead status: " ++ beadsErrMsg e)),
               { st2 with tracker := tr1 }, t1 ++ t2 ++ t3)
          | (.ok _, tr1, t3) =>
              (.ok { success := true, bead_id := some bead.id, title := some bead.title,
                     description := bead.description, worktree_path := some wt.path,
                     branch := some wt.branch,
                     message := "Claimed " ++ bead.id ++ " - work in " ++ wt.path },
               { st2 with tracker := tr1 }, t1 ++ t2 ++ t3)

/-- Output of src/tools/release.rs (`ReleaseOutput`). -/
structure ReleaseOutput where
  success : Bool
  bead_id : String
  status : String
  merged : Bool
  message : String
deriving DecidableEq, Repr

/-- The structured message returned by `release_bead` on a merge conflict. -/
def conflictMsg (bead_id : String) : String :=
  "Merge conflict detected. Options:\n" ++
  "1. Resolve conflicts manually, then: bacchus resolve " ++ bead_id ++ "\n" ++
  "2. Abort merge, keep working: bacchus abort " ++ bead_id ++ "\n" ++
  "3. Discard all work: bacchus release " ++ bead_id ++ " --status failed"

/-- src/tools/release.rs `release_bead`: requires a claim; `done` merges the
branch into main (on failure, reporting the conflict sub-protocol when
`.git/MERGE_HEAD` exists, and leaving the claim row in place), then removes
the worktree non-force and closes the bead; `blocked` only updates the
tracker; `failed` force-removes the worktree and reopens the bead; each
successful path ends by deleting the claim row. -/
def release_bead (env : Env) (bead_id status : String) (st : St) :
    Except Err ReleaseOutput × St × List Ev :=
  if !(claim_exists st.claims bead_id) then
    (.ok { success := false, bead_id := bead_id, status := status, merged := false,
           message := "No claim found for " ++ bead_id }, st, [])
  else
    match status with
    | "done" =>
      match Worktree.merge_worktree env st.git bead_id "main" with
      | (.error e, git1, t1) =>
          let is_conflict := Worktree.is_in_merge_conflict git1
          let message :=
            if is_conflict then conflictMsg bead_id
            else "Failed to merge: " ++ wtErrMsg e
          (.ok { success := false, bead_id := bead_id, status := status, merged := false,
                 message := message }, { st with git := git1 }, t1)
      | (.ok _, git1, t1) =>
        match Worktree.remove_worktree env git1 bead_id false with
        | (.error e, git2, t2) => (.error (.wt e), { st with git := git2 }, t1 ++ t2)
        | (.ok _, git2, t2) =>
          match Beads.update_bead_status env st.tracker bead_id "closed" with
          | (.error e, tr1, t3) =>
              (.error (.beads e), { st with git := git2, tracker := tr1 },
               t1 ++ t2 ++ t3)
          | (.ok _, tr1, t3) =>
              let (claims1, t4) := delete_claim st.claims bead_id
              (.ok { success := true, bead_id := bead_id, status := status, merged := true,
                     message := "Released " ++ bead_id ++ " with status " ++ status },
               { claims := claims1, tracker := tr1, git := git2 }, t1 ++ t2 ++ t3 ++ t4)
    | "blocked" =>
      match Beads.update_bead_status env st.tracker bead_id "blocked" with
      | (.error e, tr1, t1) => (.error (.beads e), { st with tracker := tr1 }, t1)
      | (.ok _, tr1, t1) =>
          let (claims1, t2) := delete_claim st.claims bead_id
          (.ok { success := true, bead_id := bead_id, status := status, merged := false,
                 message := "Released " ++ bead_id ++ " with status " ++ status },
           { st with tracker := tr1, claims := claims1 }, t1 ++ t2)
    | "failed" =>
      match Worktree.remove_worktree env st.git bead_id true with
      | (.error e, git1, t1) => (.error (.wt e), { st with git := git1 }, t1)
      | (.ok _, git1, t1) =>
        match Beads.update_bead_status env st.tracker bead_id "open" with
        | (.error e, tr1, t2) =>
            (.error (.beads e), { st with git := git1, tracker := tr1 }, t1 ++ t2)
        | (.ok _, tr1, t2) =>
            let (claims1, t3) := delete_claim st.claims bead_id
            (.ok { success := true, bead_id := bead_id, status := status, merged := false,
                   message := "Released " ++ bead_id ++ " with status " ++ status },
             { claims := claims1, tracker := tr1, git := git1 }, t1 ++ t2 ++ t3)
    | _ =>
        (.ok { success := false, bead_id := bead_id, status := status, merged := false,
               message := "Invalid status: " ++ status ++ ". Use done, blocked, or failed" },
         st, [])

/-- Output of src/tools/abort.rs (`AbortOutput`). -/
structure AbortOutput where
  success : Bool
  bead_id : String
  message : String
deriving DecidableEq, Repr

/-- src/tools/abort.rs `abort_merge`: requires a claim and an in-progress
merge; when `get_merge_branch` resolves a branch it must equal
`bacchus/{bead_id}`; then aborts the merge, leaving the claim row and the
worktree untouched. -/
def abort_merge (env : Env) (bead_id : String) (st : St) :
    Except Err AbortOutput × St × List Ev :=
  if !(claim_exists st.claims bead_id) then
    (.ok { success := false, bead_id := bead_id,
           message := "No claim found for " ++ bead_id }, st, [])
  else if !(Worktree.is_in_merge_conflict st.git) then
    (.ok { success := false, bead_id := bead_id,
           message := "Not in a merge conflict state. Nothing to abort." }, st, [])
  else
    let expected := "bacchus/" ++ bead_id
    let doAbort :=
      match Worktree.abort_merge env st.git with
      | (.error e, git1, t1) => (.error (.wt e), { st with git := git1 }, t1)
      | (.ok _, git1, t1) =>
          (.ok { success := true, bead_id := bead_id,
                 message := "Aborted merge for " ++ bead_id ++
                   ". Worktree preserved at .bacchus/worktrees/" ++ bead_id ++
                   ". Continue working or release with --status failed." },
           { st with git := git1 }, t1)
    match Worktree.get_merge_branch st.git with
    | some branch =>
        if branch != expected then
          (.ok { success := false, bead_id := bead_id,
                 message := "Current merge conflict is for \x27" ++ branch ++
                   "\x27, not \x27" ++ expected ++ "\x27. Abort the correct bead." },
           st, [])
        else doAbort
    | none => doAbort

/-- Output of src/tools/resolve.rs (`ResolveOutput`). -/
structure ResolveOutput where
  success : Bool
  bead_id : String
  merged : Bool
  message : String
deriving DecidableEq, Repr

/-- src/tools/resolve.rs `resolve_merge`: requires a claim, an in-progress
merge for the matching branch (when resolvable), and no unresolved conflicts;
then completes the merge, removes the worktree non-force, closes the bead and
deletes the claim row. -/
def resolve_merge (env : Env) (bead_id : String) (st : St) :
    Except Err ResolveOutput × St × List Ev :=
  if !(claim_exists st.claims bead_id) then
    (.ok { success := false, bead_id := bead_id, merged := false,
           message := "No claim found for " ++ bead_id }, st, [])
  else if !(Worktree.is_in_merge_conflict st.git) then
    (.ok { success := false, bead_id := bead_id, merged := false,
           message := "Not in a merge state. Use \x27bacchus release --status done\x27 instead." },
     st, [])
  else
    let expected := "bacchus/" ++ bead_id
    let doResolve :=
      if Worktree.has_unresolved_conflicts st.git then
        (.ok { success := false, bead_id := bead_id, merged := false,
               message := "Unresolved conflicts remain. Fix all conflicts and stage changes with \x27git add\x27." },
         st, ([] : List Ev))
      else
        match Worktree.complete_merge env st.git with
        | (.error e, git1, t1) => (.error (.wt e), { st with git := git1 }, t1)
        | (.ok _, git1, t1) =>
          match Worktree.remove_worktree env git1 bead_id false with
          | (.error e, git2, t2) => (.error (.wt e), { st with git := git2 }, t1 ++ t2)
          | (.ok _, git2, t2) =>
            match Beads.update_bead_status env st.tracker bead_id "closed" with
            | (.error e, tr1, t3) =>
                (.error (.beads e), { st with git := git2, tracker := tr1 },
                 t1 ++ t2 ++ t3)
            | (.ok _, tr1, t3) =>
                let (claims1, t4) := delete_claim st.claims bead_id
                (.ok { success := true, bead_id := bead_id, merged := true,
                       message := "Merge completed for " ++ bead_id ++
                         ". Worktree removed, bead closed." },
                 { claims := claims1, tracker := tr1, git := git2 },
                 t1 ++ t2 ++ t3 ++ t4)
    match Worktree.get_merge_branch st.git with
    | some branch =>
        if branch != expected then
          (.ok { success := false, bead_id := bead_id, merged := false,
                 message := "Current merge is for \x27" ++ branch ++ "\x27, not \x27" ++
                   expected ++ "\x27. Resolve the correct bead." }, st, [])
        else doResolve
    | none => doResolve

/-- An element of the stale-claims listing (src/tools/stale.rs `StaleClaim`). -/
structure StaleClaim where
  bead_id : String
  agent_id : String
  worktree_path : String
  claimed_at : Int
  age_minutes : Int
deriving DecidableEq, Repr

/-- Output of src/tools/stale.rs (`StaleOutput`). -/
structure StaleOutput where
  stale_claims : List StaleClaim
  cleaned_up : List String
  message : String
deriving DecidableEq, Repr

/-- The `StaleClaim` record built from a claims row (`age_minutes` uses the
truncating division of Rust `i64`). -/
def to_stale (now : Int) (c : ClaimRow) : StaleClaim :=
  { bead_id := c.bead_id, agent_id := c.agent_id, worktree_path := c.worktree_path,
    claimed_at := c.claimed_at, age_minutes := Int.tdiv (now - c.claimed_at) 60000 }

/-- Per-item cleanup of src/tools/stale.rs: force-remove the worktree, reset
the bead to open, delete the claim row; errors of the first two steps are
logged and ignored, the delete result is discarded. -/
def cleanup_item (env : Env) (bead : String) (st : St) : St × List Ev :=
  let (_, git1, t1) := Worktree.remove_worktree env st.git bead true
  let (_, tr1, t2) := Beads.update_bead_status env st.tracker bead "open"
  let (claims1, t3) := delete_claim st.claims bead
  ({ claims := claims1, tracker := tr1, git := git1 }, t1 ++ t2 ++ t3)

/-- The cleanup loop of src/tools/stale.rs: every stale claim is processed and
recorded in `cleaned_up`, regardless of per-item failures. -/
def cleanup_loop (env : Env) (items : List StaleClaim) (st : St) :
    St × List String × List Ev :=
  match items with
  | [] => (st, [], [])
  | c :: rest =>
    let (st1, t1) := cleanup_item env c.bead_id st
    let (st2, ids, t2) := cleanup_loop env rest st1
    (st2, c.bead_id :: ids, t1 ++ t2)

/-- src/tools/stale.rs `find_stale`: claims with `claimed_at` strictly below
`now - minutes*60*1000` are stale; with `cleanup` each of them goes through
the `Release(failed)` sequence. -/
def find_stale (env : Env) (minutes : Int) (cleanup : Bool) (now : Int) (st : St) :
    Except Err StaleOutput × St × List Ev :=
  let cutoff := now - minutes * 60 * 1000
  let stale_claims :=
    (st.claims.filter (fun c => decide (c.claimed_at < cutoff))).map (to_stale now)
  if cleanup then
    let (st1, cleaned, tr) := cleanup_loop env stale_claims st
    (.ok { stale_claims := stale_claims, cleaned_up := cleaned,
           message := "Found " ++ toString stale_claims.length ++
             " stale claims, cleaned up " ++ toString cleaned.length }, st1, tr)
  else
    (.ok { stale_claims := stale_claims, cleaned_up := [],
           message := "Found " ++ toString stale_claims.length ++
             " stale claims (use --cleanup to remove)" }, st, [])

end Tools

/-- One engine invocation, as far as the resulting state is concerned. -/
inductive Op
  | claim (bead agent : String) (force : Bool) (now : Int)
  | next (agent : String) (now : Int)
  | release (bead status : String)
  | abort (bead : String)
  | resolve (bead : String)
  | stale (minutes : Int) (cleanup : Bool) (now : Int)

/-- The state reached by running one engine operation. -/
def run_op (env : Env) (op : Op) (st : St) : St :=
  match op with
  | .claim b a f n => (Tools.claim_task env b a f n st).2.1
  | .next a n => (Tools.next_task env a n st).2.1
  | .release b s => (Tools.release_bead env b s st).2.1
  | .abort b => (Tools.abort_merge env b st).2.1
  | .resolve b => (Tools.resolve_merge env b st).2.1
  | .stale m c n => (Tools.find_stale env m c n st).2.1

/-- At most one claims row per bead: the `bead_id` column is duplicate-free. -/
def claims_unique (claims : List ClaimRow) : Prop :=
  (claims.map ClaimRow.bead_id).Nodup

/-- The tracker status of a bead, when the bead exists. -/
def tracker_status (db : TrackerDb) (id : String) : Option String :=
  (db.issues.find? (fun i => i.id == id)).map BeadInfo.status

/-- Environment in which every external effect succeeds and merges are clean. -/
def envAllOk : Env where
  createOk := fun _ => true
  removeWtOk := fun _ => true
  delBranchOk := fun _ _ => true
  insertOk := true
  trackerDbOk := fun _ => true
  checkoutOk := true
  mergeOutcome := fun _ => .ok
  abortOk := true
  stageOk := true
  commitOk := true

/-- Environment in which every merge hits a conflict whose `MERGE_HEAD`
resolves to the merged branch; everything else succeeds. -/
def envConflict : Env :=
  { envAllOk with mergeOutcome := fun b => .conflict (some ("bacchus/" ++ b)) }

/-- A fresh repository state: no worktrees, no merge in progress. -/
def gitBase : GitState :=
  { worktrees := [], branches := [], headCommit := "c0", mergeHead := false,
    nameRevOut := none, unresolved := false }

/-- A tracker with two ready beads, `B1` at P1 and `B2` at P2. -/
def trackerBase : TrackerDb :=
  { issues := [{ id := "B1", title := "t1", description := none, priority := "P1", status := "open" },
               { id := "B2", title := "t2", description := none, priority := "P2", status := "open" }],
    deps := [] }

/-- Initial engine state over `trackerBase`. -/
def stBase : St := { claims := [], tracker := trackerBase, git := gitBase }

/-- State after agent-a successfully claims `B1`. -/
def stClaimed : St := (Tools.claim_task envAllOk "B1" "agent-a" false 0 stBase).2.1

/-- State after a `Release(done)` of `B1` that hit a merge conflict. -/
def stConflict : St := (Tools.release_bead envConflict "B1" "done" stClaimed).2.1

/-- A claims row for `B1` as `claim_task` would create it. -/
def rowB1 : ClaimRow :=
  { bead_id := "B1", agent_id := "agent-a", worktree_path := ".bacchus/worktrees/B1",
    branch_name := "bacchus/B1", start_commit := "c0", claimed_at := 0 }

/-- A state mid-merge-conflict whose `MERGE_HEAD` cannot be resolved by
`name-rev` (the subprocess fails, so `get_merge_branch` yields `none`). -/
def stMergeNoBranch : St :=
  { claims := [rowB1], tracker := trackerBase,
    git := { worktrees := ["B1"], branches := ["bacchus/B1"], headCommit := "c0",
             mergeHead := true, nameRevOut := none, unresolved := false } }

/-- A state whose tracker reports `B1` as closed. -/
def stClosed : St :=
  { claims := [],
    tracker := { issues := [{ id := "B1", title := "t1", description := none,
                              priority := "P1", status := "closed" }], deps := [] },
    git := gitBase }

/-- Environment in which the claims INSERT fails (for example, a concurrent
claim won the primary-key race). -/
def envInsertFail : Env := { envAllOk with insertOk := false }

/-- Environment in which the tracker status UPDATE fails. -/
def envTrackerFail : Env := { envAllOk with trackerDbOk := fun _ => false }

/-- A state where both `B1` and `B2` are ready in the tracker but `B1`
already has a claim row (reachable, for example, when a crash interrupted a
previous `next_task` between the claim insert and the tracker update, which
that code path does not roll back). -/
def stFirstReadyClaimed : St :=
  { claims := [rowB1], tracker := trackerBase,
    git := { gitBase with worktrees := ["B1"], branches := ["bacchus/B1"] } }

section Lemmas

theorem claim_exists_iff_mem {cs : List ClaimRow} {b : String} :
    claim_exists cs b = true ↔ b ∈ cs.map ClaimRow.bead_id := by
  simp only [claim_exists, List.any_eq_true, List.mem_map, beq_iff_eq]

theorem claims_unique_filter {cs : List ClaimRow} (p : ClaimRow → Bool)
    (h : claims_unique cs) : claims_unique (cs.filter p) :=
  (((List.filter_sublist cs).map ClaimRow.bead_id).nodup h)

theorem claims_unique_insert {cs : List ClaimRow} {row : ClaimRow}
    (h : claims_unique cs) (hni : claim_exists cs row.bead_id = false) :
    claims_unique (cs ++ [row]) := by
  have hmem : row.bead_id ∉ cs.map ClaimRow.bead_id := by
    intro hm
    rw [← claim_exists_iff_mem] at hm
    simp [hm] at hni
  simpa [claims_unique, List.nodup_append] using And.intro h hmem

theorem insert_claim_claims (env : Env) (cs : List ClaimRow) (row : ClaimRow) :
    (insert_claim env cs row).2.1 = cs ∨
      ((insert_claim env cs row).2.1 = cs ++ [row] ∧
        claim_exists cs row.bead_id = false) := by
  unfold insert_claim
  by_cases h1 : claim_exists cs row.bead_id
  · simp [h1]
  · by_cases h2 : env.insertOk <;> simp [h1, h2]

theorem insert_claim_unique (env : Env) {cs : List ClaimRow} (row : ClaimRow)
    (h : claims_unique cs) : claims_unique (insert_claim env cs row).2.1 := by
  rcases insert_claim_claims env cs row with h1 | ⟨h1, h2⟩ <;> rw [h1]
  · exact h
  · exact claims_unique_insert h h2

theorem delete_claim_unique {cs : List ClaimRow} (b : String)
    (h : claims_unique cs) : claims_unique (delete_claim cs b).1 :=
  claims_unique_filter _ h

theorem claim_exists_delete (cs : List ClaimRow) (b : String) :
    claim_exists (delete_claim cs b).1 b = false := by
  simp only [delete_claim, claim_exists, List.any_filter]
  simp [List.any_eq_true]

theorem claim_exists_append_self (cs : List ClaimRow) (row : ClaimRow) :
    claim_exists (cs ++ [row]) row.bead_id = true := by
  simp [claim_exists, List.any_eq_true]

theorem get_bead_ok_any {db : TrackerDb} {id : String} {bead : BeadInfo}
    (h : Beads.get_bead db id = .ok bead) :
    db.issues.any (fun i => i.id == id) = true := by
  unfold Beads.get_bead at h
  rcases hf : db.issues.find? (fun i => i.id == id) with _ | b
  · rw [hf] at h; exact absurd h (by simp)
  · have h1 : b ∈ db.issues := List.mem_of_find?_eq_some hf
    have h2 := List.find?_some hf
    exact List.any_eq_true.mpr ⟨b, h1, h2⟩

theorem find_map_update (l : List BeadInfo) (id s : String)
    (hmem : l.any (fun i => i.id == id) = true) :
    ((l.map (fun i => if i.id == id then { i with status := s } else i)).find?
        (fun i => i.id == id)).map BeadInfo.status = some s := by
  induction l with
  | nil => simp at hmem
  | cons i rest ih =>
      by_cases h : (i.id == id) = true
      · have hp : ((fun j => j.id == id) ({ i with status := s } : BeadInfo)) = true := h
        simp only [List.map_cons, if_pos h]
        rw [@List.find?_cons_of_pos BeadInfo (fun j => j.id == id) _ _ hp]
        rfl
      · simp only [List.any_cons, h, Bool.false_or] at hmem
        have hp : ¬ ((fun j => j.id == id) i) = true := h
        simp only [List.map_cons, if_neg h]
        rw [@List.find?_cons_of_neg BeadInfo (fun j => j.id == id) _ _ hp]
        exact ih hmem

theorem tracker_status_update {db : TrackerDb} {id s : String}
    (hmem : db.issues.any (fun i => i.id == id) = true) :
    tracker_status
      { db with issues := db.issues.map (fun i =>
          if i.id == id then { i with status := s } else i) } id = some s := by
  unfold tracker_status
  exact find_map_update db.issues id s hmem

theorem update_bead_status_ok {env : Env} {db : TrackerDb} {id : String} (s : String)
    (hok : env.trackerDbOk id = true)
    (hmem : db.issues.any (fun i => i.id == id) = true) :
    Beads.update_bead_status env db id s =
      (.ok { db with issues := db.issues.map (fun i =>
          if i.id == id then { i with status := s } else i) },
       { db with issues := db.issues.map (fun i =>
          if i.id == id then { i with status := s } else i) },
       [.setStatus id s]) := by
  simp [Beads.update_bead_status, hok, hmem]

theorem claim_task_claims_unique (env : Env) (b a : String) (f : Bool) (n : Int)
    (st : St) (h : claims_unique st.claims) :
    claims_unique (Tools.claim_task env b a f n st).2.1.claims := by
  unfold Tools.claim_task
  split
  · exact h
  · split
    · exact h
    split
    · exact h
    split
    · exact h
    split
    · exact h
    rename_i wt git1 t1 _
    have hins := insert_claim_unique env
      { bead_id := b, agent_id := a, worktree_path := wt.path,
        branch_name := wt.branch, start_commit := wt.head_commit, claimed_at := n } h
    dsimp only
    split
    · rename_i e claims1 t2 heq
      rw [show ({ st with git := git1 } : St).claims = st.claims from rfl, heq] at hins
      simpa using hins
    · rename_i u claims1 t2 heq
      rw [show ({ st with git := git1 } : St).claims = st.claims from rfl, heq] at hins
      simp only at hins
      split
      · simpa using delete_claim_unique b hins
      · simpa using hins

theorem next_task_claims_unique (env : Env) (a : String) (n : Int)
    (st : St) (h : claims_unique st.claims) :
    claims_unique (Tools.next_task env a n st).2.1.claims := by
  unfold Tools.next_task
  split
  · exact h
  split
  · exact h
  split
  · exact h
  rename_i bead tail hready hclaim x wt git1 t1 hcreate
  have hins := insert_claim_unique env
    { bead_id := bead.id, agent_id := a, worktree_path := wt.path,
      branch_name := wt.branch, start_commit := wt.head_commit, claimed_at := n } h
  dsimp only
  split
  · rename_i e claims1 t2 heq
    rw [show ({ st with git := git1 } : St).claims = st.claims from rfl, heq] at hins
    simpa using hins
  · rename_i u claims1 t2 heq
    rw [show ({ st with git := git1 } : St).claims = st.claims from rfl, heq] at hins
    simp only at hins
    split <;> simpa using hins

theorem release_bead_claims_unique (env : Env) (b s : String)
    (st : St) (h : claims_unique st.claims) :
    claims_unique (Tools.release_bead env b s st).2.1.claims := by
  unfold Tools.release_bead
  split
  · exact h
  split
  · -- done
    split
    · exact h
    split
    · exact h
    split
    · exact h
    · simpa using delete_claim_unique b h
  · -- blocked
    split
    · exact h
    · simpa using delete_claim_unique b h
  · -- failed
    split
    · exact h
    split
    · exact h
    · simpa using delete_claim_unique b h
  · exact h

theorem abort_merge_claims_unique (env : Env) (b : String)
    (st : St) (h : claims_unique st.claims) :
    claims_unique (Tools.abort_merge env b st).2.1.claims := by
  unfold Tools.abort_merge
  split
  · exact h
  split
  · exact h
  dsimp only
  split
  · split
    · exact h
    · split <;> exact h
  · split <;> exact h

theorem resolve_merge_claims_unique (env : Env) (b : String)
    (st : St) (h : claims_unique st.claims) :
    claims_unique (Tools.resolve_merge env b st).2.1.claims := by
  unfold Tools.resolve_merge
  split
  · exact h
  split
  · exact h
  dsimp only
  split
  · split
    · exact h
    · split
      · exact h
      split
      · exact h
      split
      · exact h
      split
      · exact h
      · simpa using delete_claim_unique b h
  · split
    · exact h
    split
    · exact h
    split
    · exact h
    split
    · exact h
    · simpa using delete_claim_unique b h

theorem cleanup_item_claims (env : Env) (bead : String) (st : St) :
    (Tools.cleanup_item env bead st).1.claims = (delete_claim st.claims bead).1 := rfl

theorem cleanup_loop_claims_unique (env : Env) (items : List Tools.StaleClaim)
    (st : St) (h : claims_unique st.claims) :
    claims_unique (Tools.cleanup_loop env items st).1.claims := by
  induction items generalizing st with
  | nil => exact h
  | cons c rest ih =>
      unfold Tools.cleanup_loop
      dsimp only
      exact ih _ (by
        rw [cleanup_item_claims]
        exact delete_claim_unique _ h)

theorem find_stale_claims_unique (env : Env) (m : Int) (c : Bool) (n : Int)
    (st : St) (h : claims_unique st.claims) :
    claims_unique (Tools.find_stale env m c n st).2.1.claims := by
  unfold Tools.find_stale
  dsimp only
  split
  · exact cleanup_loop_claims_unique env _ st h
  · exact h

theorem run_op_claims_unique (env : Env) (op : Op) (st : St)
    (h : claims_unique st.claims) :
    claims_unique (run_op env op st).claims := by
  cases op with
  | claim b a f n => exact claim_task_claims_unique env b a f n st h
  | next a n => exact next_task_claims_unique env a n st h
  | release b s => exact release_bead_claims_unique env b s st h
  | abort b => exact abort_merge_claims_unique env b st h
  | resolve b => exact resolve_merge_claims_unique env b st h
  | stale m c n => exact find_stale_claims_unique env m c n st h

theorem create_worktree_ok {env : Env} {git : GitState} {bead : String}
    (h1 : bead ∉ git.worktrees) (h2 : env.createOk bead = true) :
    Worktree.create_worktree env git bead =
      (.ok { bead_id := bead, path := worktree_path_of bead,
             branch := branch_name bead, head_commit := git.headCommit },
       { git with worktrees := bead :: git.worktrees,
                  branches := branch_name bead :: git.branches },
       [.createWt bead]) := by
  unfold Worktree.create_worktree
  rw [if_neg h1, if_pos h2]

theorem remove_worktree_ok {env : Env} {git : GitState} {bead : String}
    (force : Bool) (h1 : bead ∈ git.worktrees) (h2 : env.removeWtOk bead = true)
    (h3 : env.delBranchOk (branch_name bead) force = true) :
    Worktree.remove_worktree env git bead force =
      (.ok (), { git with worktrees := git.worktrees.filter (fun w => w != bead),
                          branches := git.branches.filter (fun x => x != branch_name bead) },
       [.removeWt bead force, .deleteBr (branch_name bead) force]) := by
  unfold Worktree.remove_worktree
  rw [if_pos h1, if_pos h2]
  dsimp only
  rw [if_pos h3]

theorem insert_claim_fail {env : Env} {cs : List ClaimRow} (row : ClaimRow)
    (h1 : claim_exists cs row.bead_id = false) (h2 : env.insertOk = false) :
    insert_claim env cs row =
      (.error (.sqlite "database failure"), cs, [.insertClaim row.bead_id]) := by
  unfold insert_claim
  rw [if_neg (by simp [h1]), if_neg (by simp [h2])]

theorem insert_claim_ok {env : Env} {cs : List ClaimRow} (row : ClaimRow)
    (h1 : claim_exists cs row.bead_id = false) (h2 : env.insertOk = true) :
    insert_claim env cs row =
      (.ok (), cs ++ [row], [.insertClaim row.bead_id]) := by
  unfold insert_claim
  rw [if_neg (by simp [h1]), if_pos (by simp [h2])]

theorem update_bead_status_dbfail {env : Env} (db : TrackerDb) {id : String} (s : String)
    (h : env.trackerDbOk id = false) :
    Beads.update_bead_status env db id s =
      (.error (.database "tracker database failure"), db, [.setStatus id s]) := by
  unfold Beads.update_bead_status
  rw [if_neg (by simp [h])]

theorem not_mem_filter_self (l : List String) (x : String) :
    x ∉ l.filter (fun w => w != x) := by
  intro h
  have := (List.mem_filter.mp h).2
  simp at this

instance : IsTotal BeadInfo Beads.readyLE := by
  constructor
  intro a b
  unfold Beads.readyLE
  rcases Nat.lt_trichotomy (Beads.priorityRank a.priority) (Beads.priorityRank b.priority)
    with h | h | h
  · exact Or.inl (Or.inl h)
  · rcases le_total a.id b.id with h2 | h2
    · exact Or.inl (Or.inr ⟨h, h2⟩)
    · exact Or.inr (Or.inr ⟨h.symm, h2⟩)
  · exact Or.inr (Or.inl h)

instance : IsTrans BeadInfo Beads.readyLE := by
  constructor
  intro a b c hab hbc
  unfold Beads.readyLE at *
  rcases hab with h1 | ⟨h1, h1b⟩ <;> rcases hbc with h2 | ⟨h2, h2b⟩
  · exact Or.inl (h1.trans h2)
  · exact Or.inl (by omega)
  · exact Or.inl (by omega)
  · exact Or.inr ⟨h1.trans h2, le_trans h1b h2b⟩

theorem get_ready_beads_mem_iff (db : TrackerDb) (b : BeadInfo) :
    b ∈ Beads.get_ready_beads db ↔
      b ∈ db.issues ∧ b.status = "open" ∧ Beads.is_blocked db b.id = false := by
  unfold Beads.get_ready_beads
  rw [(List.perm_insertionSort Beads.readyLE _).mem_iff, List.mem_filter]
  simp only [Bool.and_eq_true, beq_iff_eq, Bool.not_eq_eq_eq_not, Bool.not_true, and_assoc]

theorem get_ready_beads_sorted (db : TrackerDb) :
    List.Sorted Beads.readyLE (Beads.get_ready_beads db) :=
  List.sorted_insertionSort Beads.readyLE _

theorem ready_head_in_tracker {db : TrackerDb} {bead : BeadInfo} {rest : List BeadInfo}
    (h : Beads.get_ready_beads db = bead :: rest) :
    db.issues.any (fun i => i.id == bead.id) = true := by
  have hmem : bead ∈ Beads.get_ready_beads db := by rw [h]; exact List.mem_cons_self _ _
  have h2 := (get_ready_beads_mem_iff db bead).mp hmem
  exact List.any_eq_true.mpr ⟨bead, h2.1, by simp⟩

theorem next_task_empty (env : Env) (a : String) (n : Int) (st : St)
    (h : Beads.get_ready_beads st.tracker = []) :
    Tools.next_task env a n st =
      (.ok { success := false, bead_id := none, title := none, description := none,
             worktree_path := none, branch := none,
             message := "No ready beads available" }, st, []) := by
  unfold Tools.next_task
  rw [h]

theorem next_task_success (env : Env) (a : String) (n : Int) (st : St)
    (bead : BeadInfo) (rest : List BeadInfo)
    (hready : Beads.get_ready_beads st.tracker = bead :: rest)
    (hnc : claim_exists st.claims bead.id = false)
    (hwt : bead.id ∉ st.git.worktrees)
    (hcr : env.createOk bead.id = true)
    (hins : env.insertOk = true)
    (htr : env.trackerDbOk bead.id = true) :
    (Tools.next_task env a n st).1 =
      .ok { success := true, bead_id := some bead.id, title := some bead.title,
            description := bead.description,
            worktree_path := some (worktree_path_of bead.id),
            branch := some (branch_name bead.id),
            message := "Claimed " ++ bead.id ++ " - work in " ++ worktree_path_of bead.id } ∧
    claim_exists (Tools.next_task env a n st).2.1.claims bead.id = true ∧
    bead.id ∈ (Tools.next_task env a n st).2.1.git.worktrees ∧
    tracker_status (Tools.next_task env a n st).2.1.tracker bead.id = some "in_progress" ∧
    (Tools.next_task env a n st).2.2 =
      [.createWt bead.id, .insertClaim bead.id, .setStatus bead.id "in_progress"] := by
  have hcw := create_worktree_ok hwt hcr
  have hic := insert_claim_ok
    { bead_id := bead.id, agent_id := a, worktree_path := worktree_path_of bead.id,
      branch_name := branch_name bead.id, start_commit := st.git.headCommit,
      claimed_at := n } hnc hins
  have hup := update_bead_status_ok "in_progress" htr (ready_head_in_tracker hready)
  unfold Tools.next_task
  rw [hready]
  dsimp only
  rw [if_neg (by simp [hnc]), hcw]
  dsimp only
  rw [hic]
  dsimp only
  rw [hup]
  dsimp only
  refine ⟨rfl, ?_, List.mem_cons_self _ _, tracker_status_update (ready_head_in_tracker hready), rfl⟩
  exact claim_exists_append_self st.claims _

theorem next_task_no_compensation (env : Env) (a : String) (n : Int) (st : St)
    (bead : BeadInfo) (rest : List BeadInfo)
    (hready : Beads.get_ready_beads st.tracker = bead :: rest)
    (hnc : claim_exists st.claims bead.id = false)
    (hwt : bead.id ∉ st.git.worktrees)
    (hcr : env.createOk bead.id = true)
    (hins : env.insertOk = false) :
    (∃ e, (Tools.next_task env a n st).1 = .error e) ∧
    bead.id ∈ (Tools.next_task env a n st).2.1.git.worktrees ∧
    branch_name bead.id ∈ (Tools.next_task env a n st).2.1.git.branches ∧
    (Tools.next_task env a n st).2.2 = [.createWt bead.id, .insertClaim bead.id] := by
  have hcw := create_worktree_ok hwt hcr
  have hic := insert_claim_fail
    { bead_id := bead.id, agent_id := a, worktree_path := worktree_path_of bead.id,
      branch_name := branch_name bead.id, start_commit := st.git.headCommit,
      claimed_at := n } hnc hins
  unfold Tools.next_task
  rw [hready]
  dsimp only
  rw [if_neg (by simp [hnc]), hcw]
  dsimp only
  rw [hic]
  exact ⟨⟨_, rfl⟩, List.mem_cons_self _ _, List.mem_cons_self _ _, rfl⟩

theorem claim_task_on_claimed (env : Env) (b a : String) (f : Bool) (n : Int)
    (st : St) (bead : BeadInfo)
    (hget : Beads.get_bead st.tracker b = .ok bead)
    (hcl : claim_exists st.claims b = true) :
    (∃ o, Tools.claim_task env b a f n st = (.ok o, st, []) ∧ o.success = false) ∧
    (bead.status ≠ "closed" → (f = true ∨ Beads.is_bead_ready st.tracker b = true) →
      Tools.claim_task env b a f n st =
        (.ok { success := false, bead_id := b, title := some bead.title,
               description := bead.description, worktree_path := none, branch := none,
               message := "Bead " ++ b ++ " is already claimed" }, st, [])) := by
  unfold Tools.claim_task
  rw [hget]
  dsimp only
  by_cases hc : (bead.status == "closed") = true
  · rw [if_pos hc]
    refine ⟨⟨_, rfl, rfl⟩, fun hne _ => absurd (by simpa using hc) hne⟩
  · rw [if_neg hc]
    by_cases hr : (!f && !Beads.is_bead_ready st.tracker b) = true
    · rw [if_pos hr]
      refine ⟨⟨_, rfl, rfl⟩, fun _ hor => ?_⟩
      rcases hor with h1 | h1 <;> simp [h1] at hr
    · rw [if_neg hr, if_pos hcl]
      exact ⟨⟨_, rfl, rfl⟩, fun _ _ => rfl⟩

theorem next_task_on_claimed (env : Env) (a : String) (n : Int) (st : St)
    (bead : BeadInfo) (rest : List BeadInfo)
    (hready : Beads.get_ready_beads st.tracker = bead :: rest)
    (hcl : claim_exists st.claims bead.id = true) :
    Tools.next_task env a n st =
      (.ok { success := false, bead_id := some bead.id, title := some bead.title,
             description := bead.description, worktree_path := none, branch := none,
             message := "Bead " ++ bead.id ++ " is already claimed" }, st, []) := by
  unfold Tools.next_task
  rw [hready]
  dsimp only
  rw [if_pos hcl]

theorem merge_worktree_conflict {env : Env} (git : GitState) {bead : String}
    (target : String) {nr : Option String}
    (hco : env.checkoutOk = true) (hmo : env.mergeOutcome bead = .conflict nr) :
    Worktree.merge_worktree env git bead target =
      (.error (.gitError ("Failed to merge " ++ branch_name bead ++ ": ")),
       { git with mergeHead := true, nameRevOut := nr, unresolved := true },
       [.mergeWt bead target]) := by
  unfold Worktree.merge_worktree
  rw [if_pos hco, hmo]

theorem merge_worktree_clean {env : Env} (git : GitState) {bead : String}
    (target : String)
    (hco : env.checkoutOk = true) (hmo : env.mergeOutcome bead = .ok) :
    Worktree.merge_worktree env git bead target = (.ok (), git, [.mergeWt bead target]) := by
  unfold Worktree.merge_worktree
  rw [if_pos hco, hmo]

theorem abort_merge_port_ok {env : Env} (git : GitState) (h : env.abortOk = true) :
    Worktree.abort_merge env git =
      (.ok (), { git with mergeHead := false, nameRevOut := none, unresolved := false },
       [.abortMg]) := by
  unfold Worktree.abort_merge
  rw [if_pos h]

theorem claim_exists_filter_le {cs : List ClaimRow} {p : ClaimRow → Bool} {x : String}
    (h : claim_exists (cs.filter p) x = true) : claim_exists cs x = true := by
  simp only [claim_exists, List.any_eq_true] at h ⊢
  rcases h with ⟨c, hc, h2⟩
  exact ⟨c, (List.mem_filter.mp hc).1, h2⟩

theorem cleanup_item_exists_false (env : Env) (bead : String) (st : St) :
    claim_exists (Tools.cleanup_item env bead st).1.claims bead = false :=
  claim_exists_delete st.claims bead

theorem cleanup_item_mono (env : Env) (bead x : String) (st : St)
    (h : claim_exists st.claims x = false) :
    claim_exists (Tools.cleanup_item env bead st).1.claims x = false := by
  rcases hx : claim_exists (Tools.cleanup_item env bead st).1.claims x with _ | _
  · rfl
  · exact absurd (claim_exists_filter_le hx) (by simp [h])

theorem cleanup_loop_mono (env : Env) (items : List Tools.StaleClaim) (x : String)
    (st : St) (h : claim_exists st.claims x = false) :
    claim_exists (Tools.cleanup_loop env items st).1.claims x = false := by
  induction items generalizing st with
  | nil => exact h
  | cons c rest ih =>
      unfold Tools.cleanup_loop
      dsimp only
      exact ih _ (cleanup_item_mono env c.bead_id x st h)

theorem cleanup_loop_deletes (env : Env) (items : List Tools.StaleClaim) (st : St) :
    ∀ c ∈ items,
      claim_exists (Tools.cleanup_loop env items st).1.claims c.bead_id = false := by
  induction items generalizing st with
  | nil => intro c hc; exact absurd hc (List.not_mem_nil c)
  | cons d rest ih =>
      intro c hc
      unfold Tools.cleanup_loop
      dsimp only
      rcases List.mem_cons.mp hc with rfl | hc2
      · exact cleanup_loop_mono env rest c.bead_id _
          (cleanup_item_exists_false env c.bead_id st)
      · exact ih _ c hc2

theorem cleanup_loop_ids (env : Env) (items : List Tools.StaleClaim) (st : St) :
    (Tools.cleanup_loop env items st).2.1 = items.map Tools.StaleClaim.bead_id := by
  induction items generalizing st with
  | nil => rfl
  | cons c rest ih =>
      unfold Tools.cleanup_loop
      dsimp only
      rw [ih]
      rfl

theorem remove_worktree_trace_mem (env : Env) (git : GitState) (bead : String)
    (force : Bool) :
    Ev.removeWt bead force ∈ (Worktree.remove_worktree env git bead force).2.2 := by
  unfold Worktree.remove_worktree
  repeat' split
  all_goals simp

theorem update_bead_status_trace (env : Env) (db : TrackerDb) (id s : String) :
    (Beads.update_bead_status env db id s).2.2 = [.setStatus id s] := by
  unfold Beads.update_bead_status
  repeat' split
  all_goals rfl

theorem cleanup_item_trace (env : Env) (bead : String) (st : St) :
    (Tools.cleanup_item env bead st).2 =
      (Worktree.remove_worktree env st.git bead true).2.2 ++
      (Beads.update_bead_status env st.tracker bead "open").2.2 ++
      (delete_claim st.claims bead).2 := by
  unfold Tools.cleanup_item
  rcases Worktree.remove_worktree env st.git bead true with ⟨r1, g1, t1⟩
  rcases Beads.update_bead_status env st.tracker bead "open" with ⟨r2, d2, t2⟩
  rfl

theorem cleanup_item_trace_mem (env : Env) (bead : String) (st : St) :
    Ev.removeWt bead true ∈ (Tools.cleanup_item env bead st).2 ∧
    Ev.setStatus bead "open" ∈ (Tools.cleanup_item env bead st).2 ∧
    Ev.deleteClaim bead ∈ (Tools.cleanup_item env bead st).2 := by
  rw [cleanup_item_trace]
  refine ⟨List.mem_append_left _ (List.mem_append_left _
      (remove_worktree_trace_mem env st.git bead true)), ?_, ?_⟩
  · refine List.mem_append_left _ (List.mem_append_right _ ?_)
    rw [update_bead_status_trace]
    simp
  · refine List.mem_append_right _ ?_
    simp [delete_claim]

theorem cleanup_loop_trace_mem (env : Env) (items : List Tools.StaleClaim) (st : St) :
    ∀ c ∈ items,
      Ev.removeWt c.bead_id true ∈ (Tools.cleanup_loop env items st).2.2 ∧
      Ev.setStatus c.bead_id "open" ∈ (Tools.cleanup_loop env items st).2.2 ∧
      Ev.deleteClaim c.bead_id ∈ (Tools.cleanup_loop env items st).2.2 := by
  induction items generalizing st with
  | nil => intro c hc; exact absurd hc (List.not_mem_nil c)
  | cons d rest ih =>
      intro c hc
      unfold Tools.cleanup_loop
      dsimp only
      rcases List.mem_cons.mp hc with rfl | hc2
      · have h := cleanup_item_trace_mem env c.bead_id st
        exact ⟨List.mem_append_left _ h.1, List.mem_append_left _ h.2.1,
               List.mem_append_left _ h.2.2⟩
      · have h := ih ((Tools.cleanup_item env d.bead_id st).1) c hc2
        exact ⟨List.mem_append_right _ h.1, List.mem_append_right _ h.2.1,
               List.mem_append_right _ h.2.2⟩

end Lemmas

section Claims

/-- C1 (amended): `bead_id` uniqueness of the claims table is preserved by
every engine operation, and a `Claim` or `Next` on a bead that already has a
claim row returns `success:false` with the state unchanged and no port
operation invoked; the message reports that the bead is already claimed when
the closed-status and readiness guards pass (with `force`, or when the bead
is ready); otherwise those earlier guards report their own reason. -/
theorem claim_mutex_amended :
    (∀ (env : Env) (op : Op) (st : St),
        claims_unique st.claims → claims_unique (run_op env op st).claims) ∧
    (∀ (env : Env) (b a : String) (f : Bool) (n : Int) (st : St) (bead : BeadInfo),
        Beads.get_bead st.tracker b = .ok bead →
        claim_exists st.claims b = true →
        (∃ o, Tools.claim_task env b a f n st = (.ok o, st, []) ∧ o.success = false) ∧
        (bead.status ≠ "closed" →
          (f = true ∨ Beads.is_bead_ready st.tracker b = true) →
          Tools.claim_task env b a f n st =
            (.ok { success := false, bead_id := b, title := some bead.title,
                   description := bead.description, worktree_path := none, branch := none,
                   message := "Bead " ++ b ++ " is already claimed" }, st, []))) ∧
    (∀ (env : Env) (a : String) (n : Int) (st : St) (bead : BeadInfo)
        (rest : List BeadInfo),
        Beads.get_ready_beads st.tracker = bead :: rest →
        claim_exists st.claims bead.id = true →
        Tools.next_task env a n st =
          (.ok { success := false, bead_id := some bead.id, title := some bead.title,
                 description := bead.description, worktree_path := none, branch := none,
                 message := "Bead " ++ bead.id ++ " is already claimed" }, st, [])) :=
  ⟨run_op_claims_unique,
   fun env b a f n st bead hget hcl => claim_task_on_claimed env b a f n st bead hget hcl,
   fun env a n st bead rest hready hcl => next_task_on_claimed env a n st bead rest hready hcl⟩

/-- C1 (counterexample): after agent-a has claimed `B1` (so its tracker status
is `in_progress`), a second non-forced `Claim` by agent-b returns
`success:false` but reports the readiness guard, not that the bead is already
claimed — the claim row for `B1` does exist at that point. -/
theorem claim_mutex_second_claim_message_cex :
    claim_exists stClaimed.claims "B1" = true ∧
    (Tools.claim_task envAllOk "B1" "agent-b" false 0 stClaimed).1 =
      .ok { success := false, bead_id := "B1", title := some "t1", description := none,
            worktree_path := none, branch := none,
            message := "Bead B1 is not ready (status: in_progress, may be blocked by dependencies). Use --force to override." } ∧
    "Bead B1 is not ready (status: in_progress, may be blocked by dependencies). Use --force to override." ≠
      "Bead B1 is already claimed" := by
  refine ⟨by decide, by decide, by decide⟩

/-- C1 (witness): the amended theorem applied to the concrete claimed state,
with `force` so the guards pass: the forced second `Claim` reports
`already claimed` and changes nothing. -/
theorem claim_mutex_witness :
    Tools.claim_task envAllOk "B1" "agent-b" true 0 stClaimed =
      (.ok { success := false, bead_id := "B1",
             title := some "t1", description := none,
             worktree_path := none, branch := none,
             message := "Bead B1 is already claimed" }, stClaimed, []) := by
  have h := (claim_mutex_amended.2.1 envAllOk "B1" "agent-b" true 0 stClaimed
      { id := "B1", title := "t1", description := none, priority := "P1",
        status := "in_progress" }
      (by decide) (by decide)).2 (by decide) (Or.inl rfl)
  simpa using h

/-- C2: once the guards of `claim_task` pass, worktree creation precedes the
claim-row insert, which precedes the tracker update (the traces below name
the port calls in order), and later-step failures undo the earlier steps:
when the insert fails, the worktree (force) and branch are removed before the
error propagates; when the tracker update fails, the worktree, branch and
claim row are all removed before the error surfaces — so after any failed
`claim_task` there is no claim row, no worktree and no branch for the bead
(given that the compensating removals themselves succeed, which the code
does not re-check). -/
theorem claim_atomicity (env : Env) (b a : String) (f : Bool) (n : Int)
    (st : St) (bead : BeadInfo)
    (hget : Beads.get_bead st.tracker b = .ok bead)
    (hclosed : bead.status ≠ "closed")
    (hfr : f = true ∨ Beads.is_bead_ready st.tracker b = true)
    (hnc : claim_exists st.claims b = false)
    (hwt : b ∉ st.git.worktrees)
    (hcr : env.createOk b = true)
    (hrm : env.removeWtOk b = true)
    (hdb : env.delBranchOk (branch_name b) true = true) :
    (env.insertOk = false →
      (∃ e, (Tools.claim_task env b a f n st).1 = .error e) ∧
      claim_exists (Tools.claim_task env b a f n st).2.1.claims b = false ∧
      b ∉ (Tools.claim_task env b a f n st).2.1.git.worktrees ∧
      branch_name b ∉ (Tools.claim_task env b a f n st).2.1.git.branches ∧
      (Tools.claim_task env b a f n st).2.2 =
        [.createWt b, .insertClaim b, .removeWt b true,
         .deleteBr (branch_name b) true]) ∧
    (env.insertOk = true → env.trackerDbOk b = false →
      (∃ e, (Tools.claim_task env b a f n st).1 = .error e) ∧
      claim_exists (Tools.claim_task env b a f n st).2.1.claims b = false ∧
      b ∉ (Tools.claim_task env b a f n st).2.1.git.worktrees ∧
      branch_name b ∉ (Tools.claim_task env b a f n st).2.1.git.branches ∧
      (Tools.claim_task env b a f n st).2.2 =
        [.createWt b, .insertClaim b, .setStatus b "in_progress",
         .removeWt b true, .deleteBr (branch_name b) true, .deleteClaim b]) ∧
    (env.insertOk = true → env.trackerDbOk b = true →
      (Tools.claim_task env b a f n st).2.2 =
        [.createWt b, .insertClaim b, .setStatus b "in_progress"]) := by
  have hrdy : (!f && !Beads.is_bead_ready st.tracker b) = false := by
    rcases hfr with h | h <;> simp [h]
  have hcw := create_worktree_ok hwt hcr
  have hrw := @remove_worktree_ok env
    { st.git with worktrees := b :: st.git.worktrees,
                  branches := branch_name b :: st.git.branches }
    b true (List.mem_cons_self _ _) hrm hdb
  refine ⟨?_, ?_, ?_⟩
  · intro hins
    have hic := insert_claim_fail
      { bead_id := b, agent_id := a, worktree_path := worktree_path_of b,
        branch_name := branch_name b, start_commit := st.git.headCommit,
        claimed_at := n } hnc hins
    unfold Tools.claim_task
    rw [hget]
    dsimp only
    rw [if_neg (by simp [hclosed]), if_neg (by simp [hrdy]), if_neg (by simp [hnc]), hcw]
    dsimp only
    rw [hic]
    dsimp only
    rw [hrw]
    exact ⟨⟨_, rfl⟩, hnc, not_mem_filter_self _ _, not_mem_filter_self _ _, by simp⟩
  · intro hins htr
    have hic := insert_claim_ok
      { bead_id := b, agent_id := a, worktree_path := worktree_path_of b,
        branch_name := branch_name b, start_commit := st.git.headCommit,
        claimed_at := n } hnc hins
    have hup := update_bead_status_dbfail st.tracker "in_progress" htr
    unfold Tools.claim_task
    rw [hget]
    dsimp only
    rw [if_neg (by simp [hclosed]), if_neg (by simp [hrdy]), if_neg (by simp [hnc]), hcw]
    dsimp only
    rw [hic]
    dsimp only
    rw [hup]
    dsimp only
    rw [hrw]
    dsimp only [delete_claim]
    refine ⟨⟨_, rfl⟩, ?_, not_mem_filter_self _ _, not_mem_filter_self _ _, by simp⟩
    exact claim_exists_delete
      (st.claims ++ [{ bead_id := b, agent_id := a, worktree_path := worktree_path_of b,
                       branch_name := branch_name b, start_commit := st.git.headCommit,
                       claimed_at := n }]) b
  · intro hins htr
    have hic := insert_claim_ok
      { bead_id := b, agent_id := a, worktree_path := worktree_path_of b,
        branch_name := branch_name b, start_commit := st.git.headCommit,
        claimed_at := n } hnc hins
    have hup := update_bead_status_ok "in_progress" htr (get_bead_ok_any hget)
    unfold Tools.claim_task
    rw [hget]
    dsimp only
    rw [if_neg (by simp [hclosed]), if_neg (by simp [hrdy]), if_neg (by simp [hnc]), hcw]
    dsimp only
    rw [hic]
    dsimp only
    rw [hup]
    simp

/-- C2 (witness): the atomicity theorem at the concrete base state for `B2`,
in an environment where the claims INSERT fails: the worktree and branch are
rolled back and the call errors. -/
theorem claim_atomicity_witness :
    (envInsertFail.insertOk = false →
      (∃ e, (Tools.claim_task envInsertFail "B2" "agent-a" false 5 stClaimed).1 = .error e) ∧
      claim_exists (Tools.claim_task envInsertFail "B2" "agent-a" false 5 stClaimed).2.1.claims "B2" = false ∧
      "B2" ∉ (Tools.claim_task envInsertFail "B2" "agent-a" false 5 stClaimed).2.1.git.worktrees ∧
      branch_name "B2" ∉ (Tools.claim_task envInsertFail "B2" "agent-a" false 5 stClaimed).2.1.git.branches ∧
      (Tools.claim_task envInsertFail "B2" "agent-a" false 5 stClaimed).2.2 =
        [.createWt "B2", .insertClaim "B2", .removeWt "B2" true,
         .deleteBr (branch_name "B2") true]) ∧
    (envInsertFail.insertOk = true → envInsertFail.trackerDbOk "B2" = false →
      (∃ e, (Tools.claim_task envInsertFail "B2" "agent-a" false 5 stClaimed).1 = .error e) ∧
      claim_exists (Tools.claim_task envInsertFail "B2" "agent-a" false 5 stClaimed).2.1.claims "B2" = false ∧
      "B2" ∉ (Tools.claim_task envInsertFail "B2" "agent-a" false 5 stClaimed).2.1.git.worktrees ∧
      branch_name "B2" ∉ (Tools.claim_task envInsertFail "B2" "agent-a" false 5 stClaimed).2.1.git.branches ∧
      (Tools.claim_task envInsertFail "B2" "agent-a" false 5 stClaimed).2.2 =
        [.createWt "B2", .insertClaim "B2", .setStatus "B2" "in_progress",
         .removeWt "B2" true, .deleteBr (branch_name "B2") true, .deleteClaim "B2"]) ∧
    (envInsertFail.insertOk = true → envInsertFail.trackerDbOk "B2" = true →
      (Tools.claim_task envInsertFail "B2" "agent-a" false 5 stClaimed).2.2 =
        [.createWt "B2", .insertClaim "B2", .setStatus "B2" "in_progress"]) :=
  claim_atomicity envInsertFail "B2" "agent-a" false 5 stClaimed
    { id := "B2", title := "t2", description := none, priority := "P2", status := "open" }
    (by decide) (by decide) (Or.inr (by decide)) (by decide) (by decide)
    (by decide) (by decide) (by decide)

/-- C10: a bead whose tracker status is `closed` is never claimable: for any
`force` flag, `claim_task` returns `success:false` with the already-closed
message, leaves the state unchanged and invokes no port operation (no
worktree is created, no claim row inserted) — the closed check runs before
the readiness check that `force` bypasses. -/
theorem closed_bead_never_claimable (env : Env) (b a : String) (f : Bool) (n : Int)
    (st : St) (bead : BeadInfo)
    (hget : Beads.get_bead st.tracker b = .ok bead)
    (hclosed : bead.status = "closed") :
    Tools.claim_task env b a f n st =
      (.ok { success := false, bead_id := b, title := some bead.title,
             description := bead.description, worktree_path := none, branch := none,
             message := "Bead " ++ b ++ " is already closed" }, st, []) := by
  unfold Tools.claim_task
  rw [hget]
  dsimp only
  rw [if_pos (by simp [hclosed])]

/-- C10 (witness): forcing a claim of the closed bead `B1` fails with the
already-closed message and changes nothing. -/
theorem closed_bead_never_claimable_witness :
    Tools.claim_task envAllOk "B1" "agent-x" true 0 stClosed =
      (.ok { success := false, bead_id := "B1", title := some "t1",
             description := none, worktree_path := none, branch := none,
             message := "Bead B1 is already closed" }, stClosed, []) := by
  have h := closed_bead_never_claimable envAllOk "B1" "agent-x" true 0 stClosed
    { id := "B1", title := "t1", description := none, priority := "P1",
      status := "closed" } (by decide) rfl
  simpa using h

/-- C7: releasing an existing claim with status `blocked` leaves the git
state (worktree directory and branch) completely untouched — the trace shows
the only port calls are the tracker update and the claim-row delete — sets
the tracker status of the bead to `blocked`, and deletes the claim row. -/
theorem release_blocked_frame (env : Env) (b : String) (st : St)
    (hcl : claim_exists st.claims b = true)
    (htr : env.trackerDbOk b = true)
    (hmem : st.tracker.issues.any (fun i => i.id == b) = true) :
    (Tools.release_bead env b "blocked" st).1 =
      .ok { success := true, bead_id := b, status := "blocked", merged := false,
            message := "Released " ++ b ++ " with status " ++ "blocked" } ∧
    (Tools.release_bead env b "blocked" st).2.1.git = st.git ∧
    tracker_status (Tools.release_bead env b "blocked" st).2.1.tracker b = some "blocked" ∧
    claim_exists (Tools.release_bead env b "blocked" st).2.1.claims b = false ∧
    (Tools.release_bead env b "blocked" st).2.2 =
      [.setStatus b "blocked", .deleteClaim b] := by
  have hup := update_bead_status_ok "blocked" htr hmem
  unfold Tools.release_bead
  rw [if_neg (by simp [hcl])]
  simp only [String.reduceEq, reduceIte]
  rw [hup]
  dsimp only [delete_claim]
  exact ⟨rfl, rfl, tracker_status_update hmem, claim_exists_delete st.claims b, rfl⟩

/-- C7 (witness): releasing the claimed `B1` as blocked in the concrete state:
tracker becomes `blocked`, the claim row disappears, the git state is the one
from before the call. -/
theorem release_blocked_frame_witness :
    (Tools.release_bead envAllOk "B1" "blocked" stClaimed).1 =
      .ok { success := true, bead_id := "B1", status := "blocked", merged := false,
            message := "Released " ++ "B1" ++ " with status " ++ "blocked" } ∧
    (Tools.release_bead envAllOk "B1" "blocked" stClaimed).2.1.git = stClaimed.git ∧
    tracker_status (Tools.release_bead envAllOk "B1" "blocked" stClaimed).2.1.tracker "B1" =
      some "blocked" ∧
    claim_exists (Tools.release_bead envAllOk "B1" "blocked" stClaimed).2.1.claims "B1" = false ∧
    (Tools.release_bead envAllOk "B1" "blocked" stClaimed).2.2 =
      [.setStatus "B1" "blocked", .deleteClaim "B1"] :=
  release_blocked_frame envAllOk "B1" stClaimed (by decide) (by decide) (by decide)

/-- C4: `release_bead(done)` on a merge conflict returns `success:false`,
`merged:false` with the structured message pointing at `resolve` and `abort`,
leaves the claim row untouched, and leaves the repository in a state where
`is_in_merge_conflict` is true; on a clean merge it removes the worktree
non-force (the `removeWt b false` trace event), deletes the branch, sets the
tracker status to `closed` and deletes the claim row. -/
theorem release_done_conflict_and_clean (env : Env) (b : String) (st : St)
    (hcl : claim_exists st.claims b = true)
    (hco : env.checkoutOk = true) :
    (∀ nr, env.mergeOutcome b = .conflict nr →
      (Tools.release_bead env b "done" st).1 =
        .ok { success := false, bead_id := b, status := "done", merged := false,
              message := Tools.conflictMsg b } ∧
      (Tools.release_bead env b "done" st).2.1.claims = st.claims ∧
      claim_exists (Tools.release_bead env b "done" st).2.1.claims b = true ∧
      Worktree.is_in_merge_conflict (Tools.release_bead env b "done" st).2.1.git = true ∧
      (Tools.release_bead env b "done" st).2.2 = [.mergeWt b "main"]) ∧
    (env.mergeOutcome b = .ok →
      b ∈ st.git.worktrees →
      env.removeWtOk b = true →
      env.delBranchOk (branch_name b) false = true →
      env.trackerDbOk b = true →
      st.tracker.issues.any (fun i => i.id == b) = true →
      (Tools.release_bead env b "done" st).1 =
        .ok { success := true, bead_id := b, status := "done", merged := true,
              message := "Released " ++ b ++ " with status " ++ "done" } ∧
      b ∉ (Tools.release_bead env b "done" st).2.1.git.worktrees ∧
      branch_name b ∉ (Tools.release_bead env b "done" st).2.1.git.branches ∧
      tracker_status (Tools.release_bead env b "done" st).2.1.tracker b = some "closed" ∧
      claim_exists (Tools.release_bead env b "done" st).2.1.claims b = false ∧
      (Tools.release_bead env b "done" st).2.2 =
        [.mergeWt b "main", .removeWt b false, .deleteBr (branch_name b) false,
         .setStatus b "closed", .deleteClaim b]) := by
  constructor
  · intro nr hmo
    have hmw := merge_worktree_conflict st.git "main" hco hmo
    unfold Tools.release_bead
    rw [if_neg (by simp [hcl])]
    simp only [String.reduceEq, reduceIte]
    rw [hmw]
    dsimp only
    exact ⟨rfl, rfl, hcl, rfl, rfl⟩
  · intro hmo hwt hrm hdb htr hmem
    have hmw := merge_worktree_clean st.git "main" hco hmo
    have hrw := remove_worktree_ok false hwt hrm hdb
    have hup := update_bead_status_ok "closed" htr hmem
    unfold Tools.release_bead
    rw [if_neg (by simp [hcl])]
    simp only [String.reduceEq, reduceIte]
    rw [hmw]
    dsimp only
    rw [hrw]
    dsimp only
    rw [hup]
    dsimp only [delete_claim]
    exact ⟨rfl, not_mem_filter_self _ _, not_mem_filter_self _ _,
      tracker_status_update hmem, claim_exists_delete st.claims b, rfl⟩

/-- C4 (witness): in the conflicting environment, releasing the claimed `B1`
as done reports the conflict sub-protocol, keeps the claim row and leaves the
repository mid-merge. -/
theorem release_done_conflict_witness :
    (∀ nr, envConflict.mergeOutcome "B1" = .conflict nr →
      (Tools.release_bead envConflict "B1" "done" stClaimed).1 =
        .ok { success := false, bead_id := "B1", status := "done", merged := false,
              message := Tools.conflictMsg "B1" } ∧
      (Tools.release_bead envConflict "B1" "done" stClaimed).2.1.claims = stClaimed.claims ∧
      claim_exists (Tools.release_bead envConflict "B1" "done" stClaimed).2.1.claims "B1" = true ∧
      Worktree.is_in_merge_conflict (Tools.release_bead envConflict "B1" "done" stClaimed).2.1.git = true ∧
      (Tools.release_bead envConflict "B1" "done" stClaimed).2.2 = [.mergeWt "B1" "main"]) ∧
    (envConflict.mergeOutcome "B1" = .ok →
      "B1" ∈ stClaimed.git.worktrees →
      envConflict.removeWtOk "B1" = true →
      envConflict.delBranchOk (branch_name "B1") false = true →
      envConflict.trackerDbOk "B1" = true →
      stClaimed.tracker.issues.any (fun i => i.id == "B1") = true →
      (Tools.release_bead envConflict "B1" "done" stClaimed).1 =
        .ok { success := true, bead_id := "B1", status := "done", merged := true,
              message := "Released " ++ "B1" ++ " with status " ++ "done" } ∧
      "B1" ∉ (Tools.release_bead envConflict "B1" "done" stClaimed).2.1.git.worktrees ∧
      branch_name "B1" ∉ (Tools.release_bead envConflict "B1" "done" stClaimed).2.1.git.branches ∧
      tracker_status (Tools.release_bead envConflict "B1" "done" stClaimed).2.1.tracker "B1" = some "closed" ∧
      claim_exists (Tools.release_bead envConflict "B1" "done" stClaimed).2.1.claims "B1" = false ∧
      (Tools.release_bead envConflict "B1" "done" stClaimed).2.2 =
        [.mergeWt "B1" "main", .removeWt "B1" false, .deleteBr (branch_name "B1") false,
         .setStatus "B1" "closed", .deleteClaim "B1"]) :=
  release_done_conflict_and_clean envConflict "B1" stClaimed (by decide) (by decide)

/-- C6: while unresolved conflicts remain, `resolve_merge` always returns
`success:false, merged:false`, changes no state and invokes no port operation
(so the merge is not completed, the claim row is not deleted and the worktree
is not removed); and `complete_merge` itself refuses to commit while
unresolved paths remain. -/
theorem resolve_requires_clean_staging (env : Env) (b : String) (st : St)
    (hu : st.git.unresolved = true) :
    (∃ o, Tools.resolve_merge env b st = (.ok o, st, []) ∧
      o.success = false ∧ o.merged = false) ∧
    (∀ g : GitState, g.unresolved = true →
      (Worktree.complete_merge env g).1 =
        .error (.gitError "Cannot complete merge: unresolved conflicts remain")) := by
  refine ⟨?_, fun g hg => ?_⟩
  · unfold Tools.resolve_merge
    split
    · exact ⟨_, rfl, rfl, rfl⟩
    split
    · exact ⟨_, rfl, rfl, rfl⟩
    dsimp only
    split
    · split
      · exact ⟨_, rfl, rfl, rfl⟩
      · rw [if_pos (show Worktree.has_unresolved_conflicts st.git = true from hu)]
        exact ⟨_, rfl, rfl, rfl⟩
    · rw [if_pos (show Worktree.has_unresolved_conflicts st.git = true from hu)]
      exact ⟨_, rfl, rfl, rfl⟩
  · unfold Worktree.complete_merge
    rw [if_pos hg]

/-- C6 (witness): in the concrete post-conflict state (which has unresolved
paths), `resolve_merge` fails without completing the merge, and
`complete_merge` refuses outright. -/
theorem resolve_requires_clean_staging_witness :
    (∃ o, Tools.resolve_merge envAllOk "B1" stConflict = (.ok o, stConflict, []) ∧
      o.success = false ∧ o.merged = false) ∧
    (∀ g : GitState, g.unresolved = true →
      (Worktree.complete_merge envAllOk g).1 =
        .error (.gitError "Cannot complete merge: unresolved conflicts remain")) :=
  resolve_requires_clean_staging envAllOk "B1" stConflict (by decide)

/-- C5 (counterexample): in a state that is mid-merge but where `name-rev`
cannot resolve the `MERGE_HEAD` branch (`get_merge_branch` is `none`),
`abort_merge` succeeds even though the in-progress merge branch was never
shown to match `bacchus/B1` — the branch-match guard is skipped entirely when
no branch can be resolved, so the abort does not succeed *only* when the
branch matches exactly. -/
theorem abort_unresolved_branch_cex :
    claim_exists stMergeNoBranch.claims "B1" = true ∧
    Worktree.is_in_merge_conflict stMergeNoBranch.git = true ∧
    Worktree.get_merge_branch stMergeNoBranch.git ≠ some (branch_name "B1") ∧
    (Tools.abort_merge envAllOk "B1" stMergeNoBranch).1 =
      .ok { success := true, bead_id := "B1",
            message := "Aborted merge for B1. Worktree preserved at .bacchus/worktrees/B1. Continue working or release with --status failed." } := by
  refine ⟨by decide, by decide, by decide, by decide⟩

/-- C5 (amended): `abort_merge` fails without touching anything when no claim
exists, when no merge is in progress, or when the resolved in-progress merge
branch differs from `bacchus/<bead_id>`; when the guards pass — the resolved
branch matches exactly, or no branch could be resolved at all — it calls
`AbortMerge`, leaves the claim row and the worktree untouched, and the
repository is no longer in a merge conflict. -/
theorem abort_guards_amended (env : Env) (b : String) (st : St) :
    (claim_exists st.claims b = false →
      Tools.abort_merge env b st =
        (.ok { success := false, bead_id := b,
               message := "No claim found for " ++ b }, st, [])) ∧
    (claim_exists st.claims b = true → st.git.mergeHead = false →
      Tools.abort_merge env b st =
        (.ok { success := false, bead_id := b,
               message := "Not in a merge conflict state. Nothing to abort." }, st, [])) ∧
    (∀ br, claim_exists st.claims b = true → st.git.mergeHead = true →
      Worktree.get_merge_branch st.git = some br → br ≠ branch_name b →
      Tools.abort_merge env b st =
        (.ok { success := false, bead_id := b,
               message := "Current merge conflict is for \x27" ++ br ++ "\x27, not \x27" ++
                 branch_name b ++ "\x27. Abort the correct bead." }, st, [])) ∧
    (claim_exists st.claims b = true → st.git.mergeHead = true →
      (Worktree.get_merge_branch st.git = none ∨
        Worktree.get_merge_branch st.git = some (branch_name b)) →
      env.abortOk = true →
      (Tools.abort_merge env b st).1 =
        .ok { success := true, bead_id := b,
              message := "Aborted merge for " ++ b ++
                ". Worktree preserved at .bacchus/worktrees/" ++ b ++
                ". Continue working or release with --status failed." } ∧
      (Tools.abort_merge env b st).2.1.claims = st.claims ∧
      (Tools.abort_merge env b st).2.1.git.worktrees = st.git.worktrees ∧
      (Tools.abort_merge env b st).2.1.git.branches = st.git.branches ∧
      Worktree.is_in_merge_conflict (Tools.abort_merge env b st).2.1.git = false ∧
      (Tools.abort_merge env b st).2.2 = [.abortMg]) := by
  refine ⟨?_, ?_, ?_, ?_⟩
  · intro hcl
    unfold Tools.abort_merge
    rw [if_pos (by simp [hcl])]
  · intro hcl hm
    unfold Tools.abort_merge
    rw [if_neg (by simp [hcl]),
        if_pos (by simp [Worktree.is_in_merge_conflict, hm])]
  · intro br hcl hm hbr hne
    unfold Tools.abort_merge
    rw [if_neg (by simp [hcl]),
        if_neg (by simp [Worktree.is_in_merge_conflict, hm])]
    dsimp only
    rw [hbr]
    dsimp only
    rw [if_pos (by simpa [branch_name] using hne)]
    rfl
  · intro hcl hm hbr habort
    have hab := abort_merge_port_ok st.git habort
    unfold Tools.abort_merge
    rw [if_neg (by simp [hcl]),
        if_neg (by simp [Worktree.is_in_merge_conflict, hm])]
    dsimp only
    rcases hbr with hbr | hbr
    · rw [hbr]
      dsimp only
      rw [hab]
      exact ⟨rfl, rfl, rfl, rfl, rfl, rfl⟩
    · rw [hbr]
      dsimp only
      rw [if_neg (by simp [branch_name]), hab]
      exact ⟨rfl, rfl, rfl, rfl, rfl, rfl⟩

/-- C5 (witness): in the concrete post-conflict state (where the merge branch
resolves to `bacchus/B1`), aborting succeeds, keeps the claim row and the
worktree, and clears the merge state. -/
theorem abort_guards_witness :
    (Tools.abort_merge envAllOk "B1" stConflict).1 =
      .ok { success := true, bead_id := "B1",
            message := "Aborted merge for " ++ "B1" ++
              ". Worktree preserved at .bacchus/worktrees/" ++ "B1" ++
              ". Continue working or release with --status failed." } ∧
    (Tools.abort_merge envAllOk "B1" stConflict).2.1.claims = stConflict.claims ∧
    (Tools.abort_merge envAllOk "B1" stConflict).2.1.git.worktrees = stConflict.git.worktrees ∧
    (Tools.abort_merge envAllOk "B1" stConflict).2.1.git.branches = stConflict.git.branches ∧
    Worktree.is_in_merge_conflict (Tools.abort_merge envAllOk "B1" stConflict).2.1.git = false ∧
    (Tools.abort_merge envAllOk "B1" stConflict).2.2 = [.abortMg] :=
  (abort_guards_amended envAllOk "B1" stConflict).2.2.2
    (by decide) (by decide) (Or.inr (by decide)) (by decide)

/-- C8: the stale listing is exactly the claims with `claimed_at` strictly
below `now - minutes*60000`: every listed claim is strictly below the cutoff,
every claim strictly below it is listed, a claim at `cutoff - 1` is listed
and a claim at `cutoff + 1` is not. -/
theorem stale_boundary_strict (env : Env) (minutes now : Int) (cleanup : Bool)
    (st : St) (c : ClaimRow) :
    ∃ o, (Tools.find_stale env minutes cleanup now st).1 = .ok o ∧
      o.stale_claims =
        (st.claims.filter (fun d => decide (d.claimed_at < now - minutes * 60 * 1000))).map
          (Tools.to_stale now) ∧
      (∀ s ∈ o.stale_claims, s.claimed_at < now - minutes * 60000) ∧
      (∀ d ∈ st.claims, d.claimed_at < now - minutes * 60000 →
        Tools.to_stale now d ∈ o.stale_claims) ∧
      (c ∈ st.claims → c.claimed_at = now - minutes * 60000 - 1 →
        Tools.to_stale now c ∈ o.stale_claims) ∧
      (c.claimed_at = now - minutes * 60000 + 1 →
        Tools.to_stale now c ∉ o.stale_claims) := by
  have hcut : now - minutes * 60 * 1000 = now - minutes * 60000 := by ring
  have hmem : ∀ s ∈ (st.claims.filter
        (fun d => decide (d.claimed_at < now - minutes * 60 * 1000))).map
        (Tools.to_stale now), s.claimed_at < now - minutes * 60000 := by
    intro s hs
    rcases List.mem_map.mp hs with ⟨d, hd, rfl⟩
    have h2 := (List.mem_filter.mp hd).2
    rw [hcut] at h2
    simpa [Tools.to_stale] using h2
  have hin : ∀ d ∈ st.claims, d.claimed_at < now - minutes * 60000 →
      Tools.to_stale now d ∈ (st.claims.filter
        (fun e => decide (e.claimed_at < now - minutes * 60 * 1000))).map
        (Tools.to_stale now) := by
    intro d hd hlt
    exact List.mem_map_of_mem _ (List.mem_filter.mpr ⟨hd, by rw [hcut]; simpa using hlt⟩)
  have hstale : ∀ o : Tools.StaleOutput,
      o.stale_claims =
        (st.claims.filter (fun d => decide (d.claimed_at < now - minutes * 60 * 1000))).map
          (Tools.to_stale now) →
      (∀ s ∈ o.stale_claims, s.claimed_at < now - minutes * 60000) ∧
      (∀ d ∈ st.claims, d.claimed_at < now - minutes * 60000 →
        Tools.to_stale now d ∈ o.stale_claims) ∧
      (c ∈ st.claims → c.claimed_at = now - minutes * 60000 - 1 →
        Tools.to_stale now c ∈ o.stale_claims) ∧
      (c.claimed_at = now - minutes * 60000 + 1 →
        Tools.to_stale now c ∉ o.stale_claims) := by
    intro o ho
    rw [ho]
    refine ⟨hmem, hin, fun hc hb => hin c hc (by omega), fun hb hmem2 => ?_⟩
    have := hmem _ hmem2
    simp [Tools.to_stale] at this
    omega
  unfold Tools.find_stale
  dsimp only
  split
  · exact ⟨_, rfl, rfl, hstale _ rfl⟩
  · exact ⟨_, rfl, rfl, hstale _ rfl⟩

/-- C8 (witness): the boundary theorem at a concrete state holding one claim
exactly one millisecond older than the 30-minute cutoff: it is listed. -/
theorem stale_boundary_strict_witness :
    (∃ o, (Tools.find_stale envAllOk 30 false 2000000 stClaimed).1 = .ok o ∧
      o.stale_claims =
        (stClaimed.claims.filter
          (fun d => decide (d.claimed_at < 2000000 - 30 * 60 * 1000))).map
          (Tools.to_stale 2000000) ∧
      (∀ s ∈ o.stale_claims, s.claimed_at < 2000000 - 30 * 60000) ∧
      (∀ d ∈ stClaimed.claims, d.claimed_at < 2000000 - 30 * 60000 →
        Tools.to_stale 2000000 d ∈ o.stale_claims) ∧
      (rowB1 ∈ stClaimed.claims → rowB1.claimed_at = 2000000 - 30 * 60000 - 1 →
        Tools.to_stale 2000000 rowB1 ∈ o.stale_claims) ∧
      (rowB1.claimed_at = 2000000 - 30 * 60000 + 1 →
        Tools.to_stale 2000000 rowB1 ∉ o.stale_claims)) ∧
    rowB1 ∈ stClaimed.claims ∧ rowB1.claimed_at < 2000000 - 30 * 60000 := by
  refine ⟨stale_boundary_strict envAllOk 30 2000000 false stClaimed rowB1, by decide, by decide⟩

/-- C9: `find_stale` with cleanup processes every stale claim — `cleaned_up`
lists them all — and for each one the `Release(failed)` sequence is attempted
(a force worktree removal, a tracker reset to `open` and a claim-row delete
all appear in the trace) and its claim row is gone afterwards; this holds for
every environment, so per-item worktree or tracker failures neither abort the
batch nor stop the remaining items from being processed. -/
theorem stale_cleanup_all (env : Env) (minutes now : Int) (st : St) :
    ∃ o, (Tools.find_stale env minutes true now st).1 = .ok o ∧
      o.cleaned_up = o.stale_claims.map Tools.StaleClaim.bead_id ∧
      ∀ s ∈ o.stale_claims,
        claim_exists (Tools.find_stale env minutes true now st).2.1.claims s.bead_id = false ∧
        Ev.removeWt s.bead_id true ∈ (Tools.find_stale env minutes true now st).2.2 ∧
        Ev.setStatus s.bead_id "open" ∈ (Tools.find_stale env minutes true now st).2.2 ∧
        Ev.deleteClaim s.bead_id ∈ (Tools.find_stale env minutes true now st).2.2 := by
  unfold Tools.find_stale
  dsimp only
  rw [if_pos rfl]
  have hids := cleanup_loop_ids env
    ((st.claims.filter
      (fun c => decide (c.claimed_at < now - minutes * 60 * 1000))).map (Tools.to_stale now)) st
  have hdel := cleanup_loop_deletes env
    ((st.claims.filter
      (fun c => decide (c.claimed_at < now - minutes * 60 * 1000))).map (Tools.to_stale now)) st
  have htrm := cleanup_loop_trace_mem env
    ((st.claims.filter
      (fun c => decide (c.claimed_at < now - minutes * 60 * 1000))).map (Tools.to_stale now)) st
  rcases hl : Tools.cleanup_loop env
    ((st.claims.filter
      (fun c => decide (c.claimed_at < now - minutes * 60 * 1000))).map (Tools.to_stale now)) st
    with ⟨st1, cleaned, tr⟩
  rw [hl] at hids hdel htrm
  rw [hl]
  dsimp only at hids hdel htrm ⊢
  refine ⟨_, rfl, hids, fun s hs => ?_⟩
  exact ⟨hdel s hs, (htrm s hs).1, (htrm s hs).2.1, (htrm s hs).2.2⟩

/-- C9 (witness): the cleanup theorem at a concrete stale claim in an
environment whose tracker updates always fail: the batch still completes and
the stale row is still deleted. -/
theorem stale_cleanup_all_witness :
    ∃ o, (Tools.find_stale envTrackerFail 1 true 100000000 stClaimed).1 = .ok o ∧
      o.cleaned_up = o.stale_claims.map Tools.StaleClaim.bead_id ∧
      ∀ s ∈ o.stale_claims,
        claim_exists (Tools.find_stale envTrackerFail 1 true 100000000 stClaimed).2.1.claims
          s.bead_id = false ∧
        Ev.removeWt s.bead_id true ∈
          (Tools.find_stale envTrackerFail 1 true 100000000 stClaimed).2.2 ∧
        Ev.setStatus s.bead_id "open" ∈
          (Tools.find_stale envTrackerFail 1 true 100000000 stClaimed).2.2 ∧
        Ev.deleteClaim s.bead_id ∈
          (Tools.find_stale envTrackerFail 1 true 100000000 stClaimed).2.2 :=
  stale_cleanup_all envTrackerFail 1 100000000 stClaimed

/-- C3 (counterexample): with `B1` (P1) and `B2` (P2) both ready but `B1`
already claimed, `next_task` does not pick the highest-priority bead that is
not already claimed (`B2`): it fails on `B1` with an already-claimed message
and leaves the state unchanged, claiming nothing. -/
theorem next_skips_claimed_cex :
    claim_exists stFirstReadyClaimed.claims "B1" = true ∧
    claim_exists stFirstReadyClaimed.claims "B2" = false ∧
    Beads.get_ready_beads stFirstReadyClaimed.tracker =
      [{ id := "B1", title := "t1", description := none, priority := "P1", status := "open" },
       { id := "B2", title := "t2", description := none, priority := "P2", status := "open" }] ∧
    (Tools.next_task envAllOk "agent-b" 7 stFirstReadyClaimed).1 =
      .ok { success := false, bead_id := some "B1", title := some "t1",
            description := none, worktree_path := none, branch := none,
            message := "Bead B1 is already claimed" } ∧
    (Tools.next_task envAllOk "agent-b" 7 stFirstReadyClaimed).2.1 = stFirstReadyClaimed := by
  refine ⟨by decide, by decide, by decide, by decide, by decide⟩

/-- C3 (amended): `next_task` queries the ready beads (exactly the open,
unblocked tracker items, deterministically ordered by priority rank then
identifier), returns a no-ready-work failure when the list is empty, and
otherwise attempts to claim only its first element: if that bead is already
claimed it returns `success:false` without trying any other ready bead; if it
is unclaimed it creates the worktree, inserts the claim row and sets the
tracker to `in_progress` in that order — but, unlike `claim_task`, with no
compensation: when the claim insert fails, the error propagates with the
fresh worktree and branch left in place. -/
theorem next_selection_amended :
    (∀ (db : TrackerDb) (b : BeadInfo),
      b ∈ Beads.get_ready_beads db ↔
        b ∈ db.issues ∧ b.status = "open" ∧ Beads.is_blocked db b.id = false) ∧
    (∀ db : TrackerDb, List.Sorted Beads.readyLE (Beads.get_ready_beads db)) ∧
    (∀ (env : Env) (a : String) (n : Int) (st : St),
      Beads.get_ready_beads st.tracker = [] →
      Tools.next_task env a n st =
        (.ok { success := false, bead_id := none, title := none, description := none,
               worktree_path := none, branch := none,
               message := "No ready beads available" }, st, [])) ∧
    (∀ (env : Env) (a : String) (n : Int) (st : St) (bead : BeadInfo)
        (rest : List BeadInfo),
      Beads.get_ready_beads st.tracker = bead :: rest →
      claim_exists st.claims bead.id = true →
      Tools.next_task env a n st =
        (.ok { success := false, bead_id := some bead.id, title := some bead.title,
               description := bead.description, worktree_path := none, branch := none,
               message := "Bead " ++ bead.id ++ " is already claimed" }, st, [])) ∧
    (∀ (env : Env) (a : String) (n : Int) (st : St) (bead : BeadInfo)
        (rest : List BeadInfo),
      Beads.get_ready_beads st.tracker = bead :: rest →
      claim_exists st.claims bead.id = false →
      bead.id ∉ st.git.worktrees →
      env.createOk bead.id = true →
      env.insertOk = true →
      env.trackerDbOk bead.id = true →
      (Tools.next_task env a n st).1 =
        .ok { success := true, bead_id := some bead.id, title := some bead.title,
              description := bead.description,
              worktree_path := some (worktree_path_of bead.id),
              branch := some (branch_name bead.id),
              message := "Claimed " ++ bead.id ++ " - work in " ++ worktree_path_of bead.id } ∧
      claim_exists (Tools.next_task env a n st).2.1.claims bead.id = true ∧
      bead.id ∈ (Tools.next_task env a n st).2.1.git.worktrees ∧
      tracker_status (Tools.next_task env a n st).2.1.tracker bead.id = some "in_progress" ∧
      (Tools.next_task env a n st).2.2 =
        [.createWt bead.id, .insertClaim bead.id, .setStatus bead.id "in_progress"]) ∧
    (∀ (env : Env) (a : String) (n : Int) (st : St) (bead : BeadInfo)
        (rest : List BeadInfo),
      Beads.get_ready_beads st.tracker = bead :: rest →
      claim_exists st.claims bead.id = false →
      bead.id ∉ st.git.worktrees →
      env.createOk bead.id = true →
      env.insertOk = false →
      (∃ e, (Tools.next_task env a n st).1 = .error e) ∧
      bead.id ∈ (Tools.next_task env a n st).2.1.git.worktrees ∧
      branch_name bead.id ∈ (Tools.next_task env a n st).2.1.git.branches ∧
      (Tools.next_task env a n st).2.2 = [.createWt bead.id, .insertClaim bead.id]) :=
  ⟨get_ready_beads_mem_iff, get_ready_beads_sorted, next_task_empty,
   next_task_on_claimed, next_task_success, next_task_no_compensation⟩

/-- C3 (witness): `next_task` on the fresh base state claims `B1` (the P1
bead, ahead of the P2 bead `B2`), with the full `Claim` effect sequence. -/
theorem next_selection_witness :
    (Tools.next_task envAllOk "agent-a" 0 stBase).1 =
      .ok { success := true, bead_id := some "B1", title := some "t1",
            description := none,
            worktree_path := some (worktree_path_of "B1"),
            branch := some (branch_name "B1"),
            message := "Claimed " ++ "B1" ++ " - work in " ++ worktree_path_of "B1" } ∧
    claim_exists (Tools.next_task envAllOk "agent-a" 0 stBase).2.1.claims "B1" = true ∧
    "B1" ∈ (Tools.next_task envAllOk "agent-a" 0 stBase).2.1.git.worktrees ∧
    tracker_status (Tools.next_task envAllOk "agent-a" 0 stBase).2.1.tracker "B1" =
      some "in_progress" ∧
    (Tools.next_task envAllOk "agent-a" 0 stBase).2.2 =
      [.createWt "B1", .insertClaim "B1", .setStatus "B1" "in_progress"] := by
  have h := next_selection_amended.2.2.2.2.1 envAllOk "agent-a" 0 stBase
    { id := "B1", title := "t1", description := none, priority := "P1", status := "open" }
    [{ id := "B2", title := "t2", description := none, priority := "P2", status := "open" }]
    (by decide) (by decide) (by decide) (by decide) (by decide) (by decide)
  simpa using h

end Claims

end Bacchus
